import Mathlib

/-!
# Verification of the Linux-Security-Agent event-processing core

A shallow embedding, in Lean 4, of the detection core of the
Linux-Security-Agent repository:

* `core/connection_pattern_analyzer.py` (`ConnectionPatternAnalyzer`):
  beaconing / port-scan / exfiltration detection and its per-pid and
  per-(name, ip) connection bookkeeping;
* `core/simple_agent.py` (`SimpleSecurityAgent`): the `_handle_event`
  pipeline (exclusion policy, process tracker, ML gating, connection
  analysis with warm-up suppression, alert emission) and `export_state`;
* `core/collectors/auditd_collector.py`: the sudo-wrapped-interpreter
  comm resolution of `_tail_loop`.

Embedding conventions:

* Python floats are modelled as exact rationals `ℚ`; the numeric
  comparisons the detectors make are between small decimal constants and
  sums/means of event timestamps, all exactly representable.
* `statistics.stdev(xs) < t` is expressed without square roots as
  `0 < t ∧ variance xs < t^2`, which is equivalent for the nonnegative
  sample variance (`sqrtLtB`).  The variance itself is carried where the
  source carries the stdev.
* Python `defaultdict`s keyed by pid/name are total functions with the
  default as value for absent keys; the agent's `self.processes` dict is
  an insertion-ordered association list because the source iterates it.
* `str.lower()` is modelled as ASCII lowercasing (`lowerStr`); every name
  the policies compare is ASCII.
* Impure inputs (`psutil`, `/proc` reads, `time.time()`, the pickled ML
  ensemble `detect_anomaly_ensemble`, `EnhancedRiskScorer.update_risk_score`
  and `hashlib.md5` — the latter three live outside `src/core`'s analyzed
  modules) are oracle fields of the event record or explicit function
  parameters; nothing proved below depends on their values.
* The warm-up suppression blocks of `_handle_event` have corrupted
  indentation in the source (the file does not parse at line 807); the
  project documentation states the intended semantics — during warm-up the
  suppressed counters are 0 and the corresponding alerts are not emitted —
  and the embedding uses that intended indentation, which is also the only
  reading consistent with the `else` branches present in the text.
-/

/-! ## ASCII string helpers (Python `str` operations used by the code) -/

/-- ASCII lowercase of one character (model of `str.lower` per character). -/
def lowerChar (c : Char) : Char :=
  if 'A' ≤ c ∧ c ≤ 'Z' then Char.ofNat (c.toNat + 32) else c

/-- ASCII model of Python `s.lower()`. -/
def lowerStr (s : String) : String := String.mk (s.data.map lowerChar)

/-- Whitespace test for `str.strip()` (space, tab, newline, carriage return). -/
def isPyWs (c : Char) : Bool := c = ' ' || c = '\t' || c = '\n' || c = '\r'

/-- Model of Python `s.strip()`. -/
def trimStr (s : String) : String :=
  String.mk (((s.data.dropWhile isPyWs).reverse.dropWhile isPyWs).reverse)

/-- Model of Python `s.replace('\x00', '')`. -/
def stripNulls (s : String) : String :=
  String.mk (s.data.filter (fun c => c ≠ Char.ofNat 0))

/-- Model of Python `s.startswith(pre)`. -/
def strStarts (pre s : String) : Bool := pre.data.isPrefixOf s.data

/-- Model of Python `s.endswith(suf)`. -/
def strEnds (suf s : String) : Bool := suf.data.reverse.isPrefixOf s.data.reverse

/-- Model of Python's substring test `a in b`. -/
def substrB (a b : String) : Bool := decide (a.data <:+: b.data)

/-- Model of `os.path.basename`: the part after the last `/`. -/
def basename (s : String) : String :=
  String.mk ((s.data.reverse.takeWhile (fun c => c ≠ '/')).reverse)

/-! ## Rational statistics (Python `statistics.mean` / `variance`) -/

/-- `statistics.mean`. -/
def listMean (l : List ℚ) : ℚ := l.sum / l.length

/-- `statistics.variance`: the sample variance with denominator `n - 1`
(the source only calls it with `n ≥ 2`). -/
def sampleVariance (l : List ℚ) : ℚ :=
  (l.map (fun x => (x - listMean l) ^ 2)).sum / ((l.length : ℚ) - 1)

/-- `statistics.stdev l < t` without square roots: for the nonnegative
sample variance `v`, `Real.sqrt v < t ↔ 0 < t ∧ v < t^2`. -/
def sqrtLtB (v t : ℚ) : Bool := 0 < t && v < t ^ 2

/-! ## `ConnectionPatternAnalyzer` (`core/connection_pattern_analyzer.py`) -/

/-- Analyzer configuration; the defaults are the `config.get` fallbacks of
`ConnectionPatternAnalyzer.__init__`. -/
structure ConnConfig where
  beaconThresholdVariance : ℚ := 10
  minConnectionsForBeacon : Nat := 3
  minBeaconInterval : ℚ := 1
  portScanThreshold : Nat := 5
  portScanTimeframe : ℚ := 60
  exfiltrationThreshold : Nat := 100 * 1024 * 1024

/-- The analyzer's default configuration. -/
def defaultConnConfig : ConnConfig := {}

/-- One record of `connection_history`: the `connection_info` dict built in
`analyze_connection` (`dest` is the `f"{dest_ip}:{dest_port}"` key used for
grouping). -/
structure ConnRecord where
  dest : String
  ip : String
  port : Nat
  time : ℚ
  pid : Nat
deriving DecidableEq, Repr

/-- The whitelist literal of `ConnectionPatternAnalyzer.__init__`. -/
def whitelistedProcesses : List String :=
  ["systemd", "systemctl", "groupadd", "useradd", "usermod",
   "flb-out-stackdr", "fluent-bit", "fluentd",
   "sshd", "rsyslog", "syslog", "journald",
   "dnsmasq", "resolvconf", "networkd", "NetworkManager",
   "apt", "apt-get", "yum", "dnf", "zypper", "pacman",
   "curl", "wget", "ping", "nslookup", "dig",
   "docker", "containerd", "kubelet", "kube-proxy"]

/-- Mutable state of `ConnectionPatternAnalyzer`.  `defaultdict`s are total
functions returning the default for unseen keys; `stats` is flattened into
the four counters. -/
structure AnalyzerState where
  connectionHistory : Nat → List ConnRecord
  connectionHistoryByName : String → String → List ConnRecord
  portAccessHistory : Nat → List Nat
  portAccessHistoryByName : String → String → List Nat
  bytesSent : Nat → Nat
  bytesReceived : Nat → Nat
  beaconsDetected : Nat
  portScansDetected : Nat
  exfiltrationsDetected : Nat
  totalConnectionsAnalyzed : Nat

/-- Analyzer state right after `__init__`. -/
def initialAnalyzerState : AnalyzerState :=
  { connectionHistory := fun _ => []
    connectionHistoryByName := fun _ _ => []
    portAccessHistory := fun _ => []
    portAccessHistoryByName := fun _ _ => []
    bytesSent := fun _ => 0
    bytesReceived := fun _ => 0
    beaconsDetected := 0
    portScansDetected := 0
    exfiltrationsDetected := 0
    totalConnectionsAnalyzed := 0 }

/-- Point update of a `Nat`-keyed map. -/
def updNat {α : Type} (f : Nat → α) (k : Nat) (v : α) : Nat → α :=
  fun k2 => if k2 = k then v else f k2

/-- Point update of a doubly `String`-keyed map. -/
def updStr2 {α : Type} (f : String → String → α) (k1 k2 : String) (v : α) :
    String → String → α :=
  fun a b => if a = k1 ∧ b = k2 then v else f a b

/-- `deque(maxlen=n).append`: drop from the left when full. -/
def dequeAppend {α : Type} (l : List α) (x : α) (maxlen : Nat) : List α :=
  if maxlen ≤ l.length then l.drop (l.length + 1 - maxlen) ++ [x] else l ++ [x]

/-- `set.add` on an insertion-ordered duplicate-free list. -/
def setAdd (l : List Nat) (x : Nat) : List Nat := if x ∈ l then l else l ++ [x]

/-- The parenthesis stripping of `analyze_connection`
(`process_name[1:-1]` when it starts with `(` and ends with `)`). -/
def cleanName (s : String) : String :=
  if strStarts "(" s && strEnds ")" s then String.mk (s.data.drop 1).dropLast else s

/-- Stable insertion (after all elements with `time ≤`) used to model
Python's stable `sorted(..., key=lambda x: x['time'])`. -/
def insertByTime (c : ConnRecord) : List ConnRecord → List ConnRecord
  | [] => [c]
  | y :: ys => if y.time ≤ c.time then y :: insertByTime c ys else c :: y :: ys

/-- Stable sort by timestamp (equal to Python `sorted` by stability + order). -/
def sortByTime (l : List ConnRecord) : List ConnRecord :=
  l.foldl (fun acc c => insertByTime c acc) []

/-- Intervals between consecutive connection timestamps
(`connections[i]['time'] - connections[i-1]['time']`). -/
def intervalsOf : List ConnRecord → List ℚ
  | a :: b :: rest => (b.time - a.time) :: intervalsOf (b :: rest)
  | _ => []

/-- Add a connection to its destination bucket, Python-dict insertion order. -/
def insertGroup (gs : List (String × List ConnRecord)) (k : String)
    (c : ConnRecord) : List (String × List ConnRecord) :=
  match gs with
  | [] => [(k, [c])]
  | (k2, cs) :: rest =>
      if k2 = k then (k2, cs ++ [c]) :: rest else (k2, cs) :: insertGroup rest k c

/-- `connections_by_dest` of `_detect_beaconing`: group the deque by the
`"ip:port"` key, buckets in first-seen order. -/
def groupByDest (l : List ConnRecord) : List (String × List ConnRecord) :=
  l.foldl (fun gs c => insertGroup gs c.dest c) []

/-- Detection verdicts: the result dicts of the analyzer, one constructor per
`type`.  The stdev entry of the beaconing dict is `sqrt varianceVal` and is
not carried separately. -/
inductive Verdict where
  | c2Beaconing (pid : Nat) (meanInterval varianceVal : ℚ) (connections : Nat)
      (destination : String) (riskScore : Nat) (confidence : ℚ) (severity : String)
  | portScanning (pid uniquePorts : Nat) (timeframe rate : ℚ)
      (riskScore : Nat) (confidence : ℚ) (severity : String)
  | dataExfiltration (pid bytesSentTotal bytesReceivedTotal : Nat) (ratio : ℚ)
      (riskScore : Nat) (confidence : ℚ) (severity : String)
deriving DecidableEq, Repr

/-- The per-destination body of the `_detect_beaconing` loop: `continue`
paths become `none`. -/
def checkDestBeacon (cfg : ConnConfig) (pid : Nat) (dest : String)
    (conns : List ConnRecord) : Option Verdict :=
  if conns.length < cfg.minConnectionsForBeacon then none else
  let sorted := sortByTime conns
  let intervals := intervalsOf sorted
  if intervals.length < cfg.minConnectionsForBeacon - 1 then none else
  let meanInterval := listMean intervals
  if meanInterval < cfg.minBeaconInterval then none else
  if 2 ≤ intervals.length then
    let varianceVal := sampleVariance intervals
    if cfg.minBeaconInterval ≤ meanInterval then
      if sqrtLtB varianceVal cfg.beaconThresholdVariance then
        some (.c2Beaconing pid meanInterval varianceVal conns.length dest
                85 (9/10) "HIGH")
      else none
    else none
  else none

/-- `_detect_beaconing`: first destination (in bucket order) whose sorted
intervals are regular enough. -/
def detectBeaconing (cfg : ConnConfig) (s : AnalyzerState) (pid : Nat) :
    Option Verdict :=
  let allConns := s.connectionHistory pid
  if allConns.length < cfg.minConnectionsForBeacon then none
  else (groupByDest allConns).findSome? (fun g => checkDestBeacon cfg pid g.1 g.2)

/-- `_detect_beaconing_by_name`: the (process name, dest ip) deque, in
insertion order (the source does not sort here), all ports mixed. -/
def detectBeaconingByName (cfg : ConnConfig) (s : AnalyzerState)
    (processName destIp : String) : Option Verdict :=
  let conns := s.connectionHistoryByName processName destIp
  if conns.length < cfg.minConnectionsForBeacon then none else
  let intervals := intervalsOf conns
  if intervals.length < cfg.minConnectionsForBeacon - 1 then none else
  let meanInterval := listMean intervals
  if meanInterval < cfg.minBeaconInterval then none else
  if 2 ≤ intervals.length then
    let varianceVal := sampleVariance intervals
    if sqrtLtB varianceVal cfg.beaconThresholdVariance &&
        cfg.minBeaconInterval ≤ meanInterval then
      some (.c2Beaconing ((conns.getLast?.map (·.pid)).getD 0)
              meanInterval varianceVal conns.length
              ((conns.getLast?.map (·.dest)).getD "") 85 (9/10) "HIGH")
    else none
  else none

/-- `_detect_port_scanning`. -/
def detectPortScanning (cfg : ConnConfig) (s : AnalyzerState) (pid : Nat)
    (currentTime : ℚ) : Option Verdict :=
  let uniquePorts := (s.portAccessHistory pid).length
  if uniquePorts < cfg.portScanThreshold then none else
  let conns := s.connectionHistory pid
  if conns.isEmpty then none else
  let oldest := (conns.head?.map (·.time)).getD 0
  let newest := (conns.getLast?.map (·.time)).getD 0
  let timeframe := newest - oldest
  if timeframe < cfg.portScanTimeframe ∧ cfg.portScanThreshold ≤ uniquePorts then
    let rate := (uniquePorts : ℚ) / max timeframe 1
    if rate < 1/10 then none
    else some (.portScanning pid uniquePorts timeframe rate 75 (17/20) "HIGH")
  else none

/-- `_detect_port_scanning_by_name`. -/
def detectPortScanningByName (cfg : ConnConfig) (s : AnalyzerState)
    (processName destIp : String) (currentTime : ℚ) : Option Verdict :=
  let uniquePorts := (s.portAccessHistoryByName processName destIp).length
  if uniquePorts < cfg.portScanThreshold then none else
  let conns := s.connectionHistoryByName processName destIp
  if conns.isEmpty then none else
  let oldest := (conns.head?.map (·.time)).getD 0
  let newest := (conns.getLast?.map (·.time)).getD 0
  let timeframe := newest - oldest
  if timeframe < cfg.portScanTimeframe ∧ cfg.portScanThreshold ≤ uniquePorts then
    let rate := (uniquePorts : ℚ) / max timeframe 1
    if rate < 1/10 then none
    else some (.portScanning ((conns.getLast?.map (·.pid)).getD 0) uniquePorts
                 timeframe rate 75 (17/20) "HIGH")
  else none

/-- The whitelist guard at the top of `analyze_connection`
(`process_name and process_name.lower() in [p.lower() for p in ...]`). -/
def whitelistHit : Option String → Bool
  | some n => n ≠ "" && (whitelistedProcesses.map lowerStr).contains (lowerStr n)
  | none => false

/-- `analyze_connection`: whitelist guard, bookkeeping in both the pid-keyed
and (clean name, ip)-keyed views, then beaconing and port-scan detection with
the by-name fallbacks.  Returns the detection result and the new state. -/
def analyzeConnection (cfg : ConnConfig) (s : AnalyzerState) (pid : Nat)
    (destIp : String) (destPort : Nat) (timestamp : ℚ)
    (processName : Option String) : Option Verdict × AnalyzerState :=
  if whitelistHit processName then (none, s) else
  let s1 := { s with totalConnectionsAnalyzed := s.totalConnectionsAnalyzed + 1 }
  let conn : ConnRecord :=
    { dest := destIp ++ ":" ++ toString destPort, ip := destIp, port := destPort,
      time := timestamp, pid := pid }
  let s2 := { s1 with
    connectionHistory :=
      updNat s1.connectionHistory pid (dequeAppend (s1.connectionHistory pid) conn 100)
    portAccessHistory :=
      updNat s1.portAccessHistory pid (setAdd (s1.portAccessHistory pid) destPort) }
  let s3 := match processName with
    | some n =>
        if n ≠ "" then
          let cn := cleanName n
          { s2 with
            connectionHistoryByName := updStr2 s2.connectionHistoryByName cn destIp
              (dequeAppend (s2.connectionHistoryByName cn destIp) conn 100)
            portAccessHistoryByName := updStr2 s2.portAccessHistoryByName cn destIp
              (setAdd (s2.portAccessHistoryByName cn destIp) destPort) }
        else s2
    | none => s2
  let beaconResult := match detectBeaconing cfg s3 pid with
    | some v => some v
    | none => match processName with
        | some n => if n ≠ "" then detectBeaconingByName cfg s3 n destIp else none
        | none => none
  match beaconResult with
  | some v => (some v, { s3 with beaconsDetected := s3.beaconsDetected + 1 })
  | none =>
    let scanResult := match detectPortScanning cfg s3 pid timestamp with
      | some v => some v
      | none => match processName with
          | some n =>
              if n ≠ "" then detectPortScanningByName cfg s3 n destIp timestamp
              else none
          | none => none
    match scanResult with
    | some v => (some v, { s3 with portScansDetected := s3.portScansDetected + 1 })
    | none => (none, s3)

/-- `track_data_transfer`: accumulate per-pid byte counters and fire
`DATA_EXFILTRATION` when cumulative bytes sent exceed the threshold.  This
method is separate from `analyze_connection` in the source. -/
def trackDataTransfer (cfg : ConnConfig) (s : AnalyzerState) (pid : Nat)
    (bytesSentNow bytesReceivedNow : Nat) : Option Verdict × AnalyzerState :=
  let s1 := { s with
    bytesSent := updNat s.bytesSent pid (s.bytesSent pid + bytesSentNow)
    bytesReceived := updNat s.bytesReceived pid (s.bytesReceived pid + bytesReceivedNow) }
  if cfg.exfiltrationThreshold < s1.bytesSent pid then
    (some (.dataExfiltration pid (s1.bytesSent pid) (s1.bytesReceived pid)
            ((s1.bytesSent pid : ℚ) / max (s1.bytesReceived pid : ℚ) 1)
            90 (4/5) "CRITICAL"),
     { s1 with exfiltrationsDetected := s1.exfiltrationsDetected + 1 })
  else (none, s1)

/-! ## `SimpleSecurityAgent` (`core/simple_agent.py`) -/

/-- The `default_excluded` list of `SimpleSecurityAgent.__init__`. -/
def defaultExcludedProcesses : List String :=
  ["fluent-bit", "containerd", "otelopscol", "multipathd",
   "google_osconfig_agent", "google_guest_agent", "systemd", "systemd-logind",
   "systemd-networkd", "systemd-resolved", "snapd", "sudo",
   "sshd", "bash", "sh", "dash", "zsh",
   "systemd-journald", "systemd-udevd", "dbus-daemon", "NetworkManager",
   "dockerd", "packagekitd", "packagekit", "gdm", "gnome-shell",
   "pulseaudio", "avahi-daemon", "cron", "rsyslog",
   "clear", "ls", "cat", "grep", "echo", "which", "whereis"]

/-- Agent configuration: the `config.get` fallbacks used by
`SimpleSecurityAgent`. -/
structure AgentConfig where
  riskThreshold : ℚ := 30
  warmupPeriodSeconds : ℚ := 180
  excludedProcesses : List String := []
  connConfig : ConnConfig := {}

/-- The agent's default configuration. -/
def defaultAgentConfig : AgentConfig := {}

/-- `self.excluded_process_names = set(default_excluded + excluded_processes)`
(only membership and iteration are used, so a list models the set). -/
def agentExcludedNames (cfg : AgentConfig) : List String :=
  defaultExcludedProcesses ++ cfg.excludedProcesses

/-- The four-way exclusion match of `_handle_event` (lines building
`is_excluded`): exact, case-insensitive exact, excluded-in-name and
name-in-excluded substring matches. -/
def matchesExclusion (excluded : List String) (name : String) : Bool :=
  excluded.contains name
  || (excluded.map lowerStr).contains (lowerStr name)
  || (excluded.map lowerStr).any (fun ex => substrB ex (lowerStr name))
  || (excluded.map lowerStr).any (fun ex => substrB (lowerStr name) ex)

/-- The three-way exclusion match used inside the tracker lock (it lacks the
name-in-excluded direction and the sudo/python override). -/
def matchesExclusion3 (excluded : List String) (name : String) : Bool :=
  excluded.contains name
  || (excluded.map lowerStr).contains (lowerStr name)
  || (excluded.map lowerStr).any (fun ex => substrB ex (lowerStr name))

/-- `is_sudo_python`: the resolved name is `sudo` (lowercased) and the
executable path contains `python` (lowercased). -/
def isSudoPython (name : String) (exe : Option String) : Bool :=
  lowerStr name == "sudo" &&
  (match exe with
   | some e => e ≠ "" && substrB "python" (lowerStr e)
   | none => false)

/-- `is_excluded` of `_handle_event`: the exclusion predicate with the
sudo-wrapped-python override. -/
def isExcludedEvent (excluded : List String) (name : String)
    (exe : Option String) : Bool :=
  !(isSudoPython name exe) && matchesExclusion excluded name

/-- The renaming after the exclusion check: a sudo-wrapped python process is
tracked as `python3`. -/
def effectiveEventName (name : String) (exe : Option String) : String :=
  if isSudoPython name exe then "python3" else name

/-- The sudo-comm resolution of `AuditdCollector._tail_loop`: `sudo` whose
exe contains `python` becomes `python3`; other `sudo` processes take the exe
basename when it is usable. -/
def resolveAuditComm (comm exe : String) : String :=
  if comm == "sudo" && exe ≠ "" && substrB "python" (lowerStr exe) then "python3"
  else if comm == "sudo" && exe ≠ "" then
    let b := basename exe
    if b ≠ "" && b ≠ "sudo" then b else comm
  else comm

/-- A syscall event as `_handle_event` consumes it.  Impure inputs of the
handler are oracle fields (see the file header): `oracleResolvedName` is the
value the cache/psutil-based `_resolve_process_name` would return,
`oracleInLockName` the `/proc`-plus-psutil lookup of the new-pid branch,
`mlScore`/`mlIsAnomaly` the `detect_anomaly_ensemble` result,
`riskOracle` the `EnhancedRiskScorer.update_risk_score` result, and `now` the
`time.time()` reading during this call. -/
structure SEvent where
  pid : Nat
  syscall : String
  comm : Option String
  exe : Option String
  hasEventInfo : Bool := false
  infoDestIp : Option String := none
  infoDestPort : Option Nat := none
  infoAuxPort : Option Nat := none
  oracleResolvedName : String := "unknown"
  oracleInLockName : Option String := none
  mlScore : ℚ := 0
  mlIsAnomaly : Bool := false
  riskOracle : ℚ := 0
  now : ℚ := 0

/-- One entry of `self.processes`. -/
structure ProcRecord where
  name : String
  syscalls : List String
  totalSyscalls : Nat
  riskScore : ℚ
  anomalyScore : ℚ
  isAnomaly : Bool
  lastUpdate : ℚ
  excludedFlag : Bool
  connectionCount : Nat
deriving Repr

/-- Alert classes emitted by the handler. -/
inductive AlertClass where
  | highRisk
  | mlAnomaly
  | c2Beaconing
  | portScanning
  | dataExfiltration
deriving DecidableEq, Repr

/-- An emitted alert (class plus the pid it was raised for). -/
structure Alert where
  cls : AlertClass
  pid : Nat
deriving DecidableEq, Repr

/-- Mutable agent state.  `self.processes` is an insertion-ordered
association list (the source iterates `self.processes.values()`);
`alert_cooldown.get(pid, 0)` is a total function. -/
structure AgentState where
  processes : List (Nat × ProcRecord)
  statsTotalSyscalls : Nat
  statsHighRisk : Nat
  statsAnomalies : Nat
  statsC2 : Nat
  statsScans : Nat
  recentC2Detections : List ℚ
  recentScanDetections : List ℚ
  alertCooldown : Nat → ℚ
  analyzer : AnalyzerState
  startupTime : ℚ
  mlFitted : Bool
  agentPid : Nat

/-- State right after `start()`'s reset, before any event. -/
def initialAgentState (startup : ℚ) (agentPid : Nat) (fitted : Bool) : AgentState :=
  { processes := []
    statsTotalSyscalls := 0
    statsHighRisk := 0
    statsAnomalies := 0
    statsC2 := 0
    statsScans := 0
    recentC2Detections := []
    recentScanDetections := []
    alertCooldown := fun _ => 0
    analyzer := initialAnalyzerState
    startupTime := startup
    mlFitted := fitted
    agentPid := agentPid }

/-- Store (replace in place, or append when absent) a pid's record,
Python-dict order. -/
def setProc : List (Nat × ProcRecord) → Nat → ProcRecord → List (Nat × ProcRecord)
  | [], pid, r => [(pid, r)]
  | kv :: rest, pid, r =>
      if kv.1 = pid then (pid, r) :: rest else kv :: setProc rest pid r

/-- `del self.processes[pid]`. -/
def delProc (ps : List (Nat × ProcRecord)) (pid : Nat) : List (Nat × ProcRecord) :=
  ps.filter (fun kv => kv.1 ≠ pid)

/-- `_count_recent_detections`: timestamps within the last 300 s. -/
def countRecent (detectionTimes : List ℚ) (now : ℚ) : Nat :=
  (detectionTimes.filter (fun ts => decide (now - ts < 300))).length

/-- The pre-lock name resolution of `_handle_event` (event.comm when valid,
otherwise the impure `_resolve_process_name`, abstracted as an oracle). -/
def preLockName (e : SEvent) : String :=
  let n0 : Option String := match e.comm with
    | some c => if c ≠ "" && !(strStarts "pid_" c) then some (trimStr c) else none
    | none => none
  match n0 with
  | some n => if n == "" || strStarts "pid_" n then e.oracleResolvedName else n
  | none => e.oracleResolvedName

/-- The in-lock name resolution for a newly seen pid (cleaned event.comm
first, then the `/proc`/psutil lookups, then `_resolve_process_name`, both
impure steps abstracted as oracles). -/
def inLockNewName (e : SEvent) : String :=
  let fromComm : Option String := match e.comm with
    | some c =>
        let cc := stripNulls (trimStr c)
        if cc ≠ "" && !(strStarts "pid_" cc) then some cc else none
    | none => none
  match fromComm with
  | some n => n
  | none => match e.oracleInLockName with
    | some n =>
        if n ≠ "" && !(strStarts "pid_" n) then n else e.oracleResolvedName
    | none => e.oracleResolvedName

/-- Outcome of the tracker section under `processes_lock` (creation /
rename / stored-name exclusion), including the common ring append and
counter increments. -/
inductive TrackResult where
  | removed (s : AgentState)
  | tracked (s : AgentState) (rec : ProcRecord)

/-- The name refresh for an already-tracked pid (`_handle_event`, the
`else` branch of the tracker lock): an empty or `pid_`-fallback stored name
is replaced by the resolver's answer when that answer is usable. -/
def inLockRenamed (e : SEvent) (old : ProcRecord) : String :=
  if old.name == "" || strStarts "pid_" old.name then
    (if e.oracleResolvedName ≠ "" && !(strStarts "pid_" e.oracleResolvedName)
     then e.oracleResolvedName else old.name)
  else old.name

/-- The branch-specific part of the tracker section of `_handle_event`:
create the record for a new pid (flagging but not dropping in-lock-excluded
names), or for a known pid re-resolve a fallback name; `none` means the
stored name matched the in-lock exclusion and the record is dropped. -/
def trackerBase (cfg : AgentConfig) (s : AgentState) (e : SEvent) :
    Option ProcRecord :=
  match s.processes.lookup e.pid with
  | none =>
      let nm := inLockNewName e
      some { name := nm, syscalls := [], totalSyscalls := 0, riskScore := 0,
             anomalyScore := 0, isAnomaly := false, lastUpdate := e.now,
             excludedFlag := matchesExclusion3 (agentExcludedNames cfg) nm,
             connectionCount := 0 }
  | some old =>
      let nm1 := inLockRenamed e old
      if nm1 ≠ "" && !(strStarts "pid_" nm1) &&
          matchesExclusion3 (agentExcludedNames cfg) nm1 then
        none
      else some { old with name := nm1 }

/-- The tracker section of `_handle_event`: the branch-specific part
(`trackerBase`), then the common ring append with cap 100, cumulative
counter increments and `last_update` stamp; the dropped case deletes the
record and returns. -/
def trackerUpdate (cfg : AgentConfig) (s : AgentState) (e : SEvent) : TrackResult :=
  match trackerBase cfg s e with
  | none => .removed { s with processes := delProc s.processes e.pid }
  | some rec0 =>
      let rec1 := { rec0 with
        syscalls := dequeAppend rec0.syscalls e.syscall 100
        totalSyscalls := rec0.totalSyscalls + 1
        lastUpdate := e.now }
      .tracked { s with processes := setProc s.processes e.pid rec1,
                        statsTotalSyscalls := s.statsTotalSyscalls + 1 } rec1

/-- Result of the ML gating section: the values stored into the record and
whether `detect_anomaly_ensemble` was invoked. -/
structure MLOutcome where
  anomalyScore : ℚ
  isAnomaly : Bool
  invoked : Bool
deriving Repr

/-- The ML gating of `_handle_event`: when the detector is fitted, a window
below `min_syscalls_for_ml = 15` skips inference and zeroes the fields;
otherwise the ensemble runs (its result is the event's oracle fields).  When
not fitted the previous score is kept. -/
def mlStep (fitted : Bool) (e : SEvent) (rec : ProcRecord) : MLOutcome :=
  let prev := rec.anomalyScore
  if fitted then
    if rec.syscalls.length < 15 then
      { anomalyScore := 0, isAnomaly := false, invoked := false }
    else
      { anomalyScore := |e.mlScore|, isAnomaly := e.mlIsAnomaly, invoked := true }
  else
    { anomalyScore := if 0 < prev then prev else 0, isAnomaly := rec.isAnomaly,
      invoked := false }

/-- The synthetic-port fabrication of `_handle_event` (the `dest_port == 0`
branch for socket/connect): with at least two recorded connections spaced
two seconds or more, reuse the last connection's port (C2 pattern);
otherwise derive a port in `[8000, 8199]` from the md5 of a seed string.
`md5hex8` abstracts `int(hashlib.md5(seed).hexdigest()[:8], 16)`. -/
def fabricatePort (md5hex8 : String → Nat) (now : ℚ) (pid : Nat)
    (destIp : String) (connectionCount : Nat) (prevConns : List ConnRecord) : Nat :=
  if 2 ≤ prevConns.length then
    if 2 ≤ now - (prevConns.getLast?.getD
        { dest := "", ip := "", port := 0, time := 0, pid := 0 }).time then
      (prevConns.getLast?.getD
        { dest := "", ip := "", port := 0, time := 0, pid := 0 }).port
    else 8000 + md5hex8 (s!"{pid}_{destIp}_{connectionCount}") % 200
  else 8000 + md5hex8 (s!"{pid}_{destIp}") % 200

/-- Network syscalls that trigger the connection stage. -/
def networkSyscalls : List String := ["socket", "connect", "sendto", "sendmsg"]

/-- Observable effects of one `_handle_event` call: the alerts logged and
whether ML inference ran. -/
structure Effects where
  alerts : List Alert
  mlInvoked : Bool
deriving Repr

/-- `sum(1 for p in processes.values() if p['anomaly_score'] >= 70.0)`. -/
def countAnomalous (ps : List (Nat × ProcRecord)) : Nat :=
  (ps.filter (fun kv => decide ((70 : ℚ) ≤ kv.2.anomalyScore))).length

/-- `sum(1 for p in processes.values() if p['risk_score'] >= threshold)`. -/
def countHighRisk (ps : List (Nat × ProcRecord)) (threshold : ℚ) : Nat :=
  (ps.filter (fun kv => decide (threshold ≤ kv.2.riskScore))).length

/-- The alert class a connection verdict is logged under. -/
def verdictClass : Verdict → AlertClass
  | .c2Beaconing .. => .c2Beaconing
  | .portScanning .. => .portScanning
  | .dataExfiltration .. => .dataExfiltration

/-- The immediate anomaly alert block of `_handle_event` (fires right after
the ensemble ran, with a 5 s cooldown, suppressed during warm-up). -/
def anomalyImmediateStage (warmupOver : Bool) (mlOut : MLOutcome) (pid : Nat)
    (now : ℚ) (s : AgentState) : AgentState × List Alert :=
  if mlOut.invoked && mlOut.isAnomaly && decide ((60 : ℚ) ≤ mlOut.anomalyScore)
      && decide ((5 : ℚ) ≤ now - s.alertCooldown pid) && warmupOver then
    ({ s with alertCooldown := updNat s.alertCooldown pid now },
     [{ cls := .mlAnomaly, pid := pid }])
  else (s, [])

/-- The `stats['anomalies']` update of `_handle_event` (intended warm-up
indentation: held at 0 during warm-up). -/
def anomalyStatsStage (warmupOver : Bool) (mlOut : MLOutcome)
    (s : AgentState) : AgentState :=
  if mlOut.invoked && mlOut.isAnomaly then
    { s with statsAnomalies := if warmupOver then countAnomalous s.processes else 0 }
  else s

/-- The port-extraction / fabrication step of the connection stage (the
`dest_port` recovery of `_handle_event`): the real aux port when present,
otherwise the synthetic port, bumping the record's connection counter. -/
def portStep (md5hex8 : String → Nat) (e : SEvent) (syscallNorm destIp : String)
    (rec2 : ProcRecord) (s4 : AgentState) : Nat × ProcRecord × AgentState :=
  let port0 := if e.hasEventInfo then e.infoDestPort.getD 0 else 0
  if port0 = 0 && (syscallNorm == "socket" || syscallNorm == "connect") then
    let realPort := if e.hasEventInfo then e.infoAuxPort.getD 0 else 0
    if realPort ≠ 0 then (realPort, rec2, s4)
    else
      let cc := rec2.connectionCount
      let recC := { rec2 with connectionCount := cc + 1 }
      (fabricatePort md5hex8 e.now e.pid destIp cc
         (s4.analyzer.connectionHistory e.pid),
       recC,
       { s4 with processes := setProc s4.processes e.pid recC })
  else (port0, rec2, s4)

/-- The analysis half of the connection stage: run `analyze_connection` when
a port is available, apply warm-up suppression to its verdict, and update
the recent-detection deques and counters.  Returns the new state, the
connection alerts and the risk bonus. -/
def connectionAnalysisStep (cfg : AgentConfig) (e : SEvent) (recC : ProcRecord)
    (destIp : String) (destPort : Nat) (s4a : AgentState) :
    AgentState × List Alert × ℚ :=
  if 0 < destPort then
    let res := analyzeConnection cfg.connConfig s4a.analyzer e.pid destIp
                 destPort e.now (some recC.name)
    let s4b := { s4a with analyzer := res.2 }
    -- warm-up suppression of connection verdicts
    let connResult :=
      if e.now - s4b.startupTime < cfg.warmupPeriodSeconds then none else res.1
    match connResult with
    | some v =>
        let s4c := match verdictClass v with
          | .c2Beaconing =>
              let times := dequeAppend s4b.recentC2Detections e.now 1000
              { s4b with recentC2Detections := times,
                         statsC2 := countRecent times e.now }
          | .portScanning =>
              let times := dequeAppend s4b.recentScanDetections e.now 1000
              { s4b with recentScanDetections := times,
                         statsScans := countRecent times e.now }
          | _ => s4b
        (s4c, [{ cls := verdictClass v, pid := e.pid }], (30 : ℚ))
    | none => (s4b, [], 0)
  else (s4a, [], 0)

/-- The connection-pattern stage of `_handle_event`: extract or fabricate a
destination port, run `analyze_connection`, apply warm-up suppression, and
update the recent-detection deques and counters.  Returns the new state, the
(possibly connection-count-bumped) record, the connection alerts and the
risk bonus. -/
def connectionStage (md5hex8 : String → Nat) (cfg : AgentConfig)
    (e : SEvent) (rec2 : ProcRecord) (s4 : AgentState) :
    AgentState × ProcRecord × List Alert × ℚ :=
  let syscallNorm := lowerStr (trimStr e.syscall)
  if networkSyscalls.contains syscallNorm then
    let destIp := if e.hasEventInfo then e.infoDestIp.getD "0.0.0.0" else "0.0.0.0"
    let ps := portStep md5hex8 e syscallNorm destIp rec2 s4
    let r2 := connectionAnalysisStep cfg e ps.2.1 destIp ps.1 ps.2.2
    (r2.1, ps.2.1, r2.2.1, r2.2.2)
  else (s4, rec2, [], 0)

/-- The high-risk counter and alert block of `_handle_event` (120 s
cooldown, intended warm-up indentation). -/
def highRiskStage (cfg : AgentConfig) (warmupOver : Bool) (riskScore : ℚ)
    (pid : Nat) (now : ℚ) (s6 : AgentState) : AgentState × List Alert :=
  if cfg.riskThreshold ≤ riskScore then
    let s6a := { s6 with statsHighRisk :=
      if warmupOver then countHighRisk s6.processes cfg.riskThreshold else 0 }
    if (120 : ℚ) ≤ now - s6a.alertCooldown pid then
      ({ s6a with alertCooldown := updNat s6a.alertCooldown pid now },
       if warmupOver then [{ cls := .highRisk, pid := pid }] else [])
    else (s6a, [])
  else (s6, [])

/-- The trailing anomaly alert block of `_handle_event` (re-logs anomalies
with a 5 s cooldown, warm-up suppressed). -/
def anomalySecondStage (warmupOver : Bool) (rec4 : ProcRecord)
    (mlOut : MLOutcome) (pid : Nat) (now : ℚ) (s7 : AgentState) :
    AgentState × List Alert :=
  let checkScore := if 0 < rec4.anomalyScore then rec4.anomalyScore
                    else mlOut.anomalyScore
  if rec4.isAnomaly && decide ((60 : ℚ) ≤ checkScore) then
    if (5 : ℚ) ≤ now - s7.alertCooldown pid then
      ({ s7 with alertCooldown := updNat s7.alertCooldown pid now },
       if warmupOver then [{ cls := .mlAnomaly, pid := pid }] else [])
    else (s7, [])
  else (s7, [])

/-- `_handle_event`: self-pid guard, pre-lock exclusion, tracker update, ML
gating, the connection-pattern stage with synthetic ports and warm-up
suppression, risk update with the connection bonus, and the alert blocks
with their cooldowns.  Returns the new state and the observable effects. -/
def handleEvent (md5hex8 : String → Nat) (cfg : AgentConfig) (s : AgentState)
    (e : SEvent) : AgentState × Effects :=
  if e.pid = s.agentPid then (s, { alerts := [], mlInvoked := false }) else
  if isExcludedEvent (agentExcludedNames cfg) (preLockName e) e.exe then
    (s, { alerts := [], mlInvoked := false })
  else
    match trackerUpdate cfg s e with
    | .removed s1 => (s1, { alerts := [], mlInvoked := false })
    | .tracked s1 rec1 =>
      let warmupOver := decide (cfg.warmupPeriodSeconds ≤ e.now - s1.startupTime)
      let mlOut := mlStep s1.mlFitted e rec1
      let rec2 := { rec1 with anomalyScore := mlOut.anomalyScore,
                              isAnomaly := mlOut.isAnomaly }
      let s2 := { s1 with processes := setProc s1.processes e.pid rec2 }
      let stepA := anomalyImmediateStage warmupOver mlOut e.pid e.now s2
      let s4 := anomalyStatsStage warmupOver mlOut stepA.1
      let stepC := connectionStage md5hex8 cfg e rec2 s4
      let s5 := stepC.1
      let rec3 := stepC.2.1
      let connAlerts := stepC.2.2.1
      -- risk score with connection bonus
      let riskScore := e.riskOracle + stepC.2.2.2
      let rec4 := { rec3 with riskScore := riskScore }
      let s6 := { s5 with processes := setProc s5.processes e.pid rec4 }
      let stepH := highRiskStage cfg warmupOver riskScore e.pid e.now s6
      let stepB := anomalySecondStage warmupOver rec4 mlOut e.pid e.now stepH.1
      (stepB.1, { alerts := stepA.2 ++ connAlerts ++ stepH.2 ++ stepB.2,
                  mlInvoked := mlOut.invoked })

/-- Fold `_handle_event` over an event trace, collecting all alerts. -/
def runAgent (md5hex8 : String → Nat) (cfg : AgentConfig) (init : AgentState)
    (trace : List SEvent) : AgentState × List Alert :=
  trace.foldl (fun acc e =>
    let r := handleEvent md5hex8 cfg acc.1 e
    (r.1, acc.2 ++ r.2.alerts)) (init, [])

/-! ## `export_state` (the snapshot the dashboard reads) -/

/-- One element of the exported `processes` array. -/
structure ExportedProc where
  pid : Nat
  name : String
  riskScore : ℚ
  anomalyScore : ℚ
  totalSyscalls : Nat
  syscallCount : Nat
  recentSyscalls : List String
  lastUpdate : ℚ
  timeSinceUpdate : ℚ
deriving Repr

/-- The exported `stats` object. -/
structure ExportedStats where
  totalProcesses : Nat
  highRisk : Nat
  anomalies : Nat
  totalSyscalls : Nat
  c2Beacons : Nat
  portScans : Nat
deriving DecidableEq, Repr

/-- The exported snapshot root. -/
structure ExportedState where
  timestamp : ℚ
  stats : ExportedStats
  processes : List ExportedProc
deriving Repr

/-- Python `l[-n:]`. -/
def lastN {α : Type} (n : Nat) (l : List α) : List α := l.drop (l.length - n)

/-- Stable descending insertion by risk score, modelling
`sorted(..., key=lambda x: x['risk_score'], reverse=True)`. -/
def insertByRiskDesc (p : ExportedProc) :
    List ExportedProc → List ExportedProc
  | [] => [p]
  | y :: ys => if p.riskScore ≤ y.riskScore then y :: insertByRiskDesc p ys
               else p :: y :: ys

/-- `export_state`: build the excluded-name-filtered process array, compute
the stats (all four suppressed counters are 0 during warm-up), and sort the
process array by descending risk, capped at 50. -/
def exportState (cfg : AgentConfig) (s : AgentState) (now : ℚ) : ExportedState :=
  let excludedLower := (agentExcludedNames cfg).map lowerStr
  let processesData := s.processes.filterMap (fun kv =>
    if excludedLower.contains (lowerStr kv.2.name) then none
    else
      some { pid := kv.1, name := kv.2.name, riskScore := kv.2.riskScore,
             anomalyScore := kv.2.anomalyScore,
             totalSyscalls := kv.2.totalSyscalls,
             syscallCount := kv.2.syscalls.length,
             recentSyscalls := lastN 10 kv.2.syscalls,
             lastUpdate := kv.2.lastUpdate,
             timeSinceUpdate := now - kv.2.lastUpdate })
  let inWarmup := now - s.startupTime < cfg.warmupPeriodSeconds
  let highRiskCount := if inWarmup then 0 else
    (processesData.filter (fun p => decide (cfg.riskThreshold ≤ p.riskScore))).length
  let anomaliesCount := if inWarmup then 0 else
    (processesData.filter (fun p => decide ((30 : ℚ) ≤ p.anomalyScore))).length
  let c2Count := if inWarmup then 0 else countRecent s.recentC2Detections now
  let scanCount := if inWarmup then 0 else countRecent s.recentScanDetections now
  { timestamp := now
    stats := { totalProcesses := processesData.length, highRisk := highRiskCount,
               anomalies := anomaliesCount, totalSyscalls := s.statsTotalSyscalls,
               c2Beacons := c2Count, portScans := scanCount }
    processes := (processesData.foldl (fun acc p => insertByRiskDesc p acc) []).take 50 }

/-! ## Definitions supporting the claim statements -/

/-- Per-record ring invariant: the syscall ring is capped at 100 and never
longer than the cumulative count. -/
def ringInv : Option ProcRecord → Prop
  | none => True
  | some r => r.syscalls.length ≤ 100 ∧ r.syscalls.length ≤ r.totalSyscalls

/-- A record whose ML fields were zeroed by the minimum-window gate. -/
def anomalyCleared : Option ProcRecord → Prop
  | none => False
  | some r => r.anomalyScore = 0 ∧ r.isAnomaly = false

/-- Whether `_handle_event` reaches the detection stages for this event
(neither the self-pid guard, the pre-lock exclusion, nor the in-lock
stored-name exclusion return early). -/
def reachesDetection (cfg : AgentConfig) (s : AgentState) (e : SEvent) : Bool :=
  !(e.pid == s.agentPid) &&
  !(isExcludedEvent (agentExcludedNames cfg) (preLockName e) e.exe) &&
  (match trackerUpdate cfg s e with
   | .tracked _ _ => true
   | .removed _ => false)

/-- The syscall window (`syscall_list`) the ML gate sees for this event:
the ring after this event's append. -/
def postSyscallList (cfg : AgentConfig) (s : AgentState) (e : SEvent) :
    List String :=
  match trackerUpdate cfg s e with
  | .tracked _ rec => rec.syscalls
  | .removed _ => []

/-- The beaconing firing condition of `_detect_beaconing` at default
configuration, per destination group: at least 3 connections, mean
consecutive interval (after the stable sort by time) at least 1 s, and
sample standard deviation below 10 s (expressed on the variance). -/
def beaconQualifiesB (conns : List ConnRecord) : Bool :=
  decide (3 ≤ conns.length) &&
  decide ((1 : ℚ) ≤ listMean (intervalsOf (sortByTime conns))) &&
  sqrtLtB (sampleVariance (intervalsOf (sortByTime conns))) 10

/-- The returned beaconing verdict carries risk 85, confidence 0.9, severity
HIGH, the event's pid, and the interval statistics computed from one of the
destination groups of the given history. -/
def beaconVerdictMatches (pid : Nat) (history : List ConnRecord) :
    Option Verdict → Bool
  | some (Verdict.c2Beaconing p meanInterval varianceVal cnt dest risk conf sev) =>
      p == pid && risk == 85 && conf == (9/10 : ℚ) && sev == "HIGH" &&
      (groupByDest history).any (fun g =>
        g.1 == dest && beaconQualifiesB g.2 && g.2.length == cnt &&
        meanInterval == listMean (intervalsOf (sortByTime g.2)) &&
        varianceVal == sampleVariance (intervalsOf (sortByTime g.2)))
  | _ => false

/-- The `newest - oldest` span of a pid's connection deque
(`_detect_port_scanning`). -/
def scanSpan (s : AnalyzerState) (pid : Nat) : ℚ :=
  ((s.connectionHistory pid).getLast?.map (·.time)).getD 0 -
  ((s.connectionHistory pid).head?.map (·.time)).getD 0

/-- The `ports_per_second` rate of `_detect_port_scanning`. -/
def scanRate (s : AnalyzerState) (pid : Nat) : ℚ :=
  ((s.portAccessHistory pid).length : ℚ) / max (scanSpan s pid) 1

/-! ## Concrete instances used by the witnesses and counterexamples -/

/-- Shorthand for a connection record as `analyze_connection` builds it. -/
def connAt (ip : String) (port : Nat) (t : ℚ) (pid : Nat) : ConnRecord :=
  { dest := ip ++ ":" ++ toString port, ip := ip, port := port, time := t, pid := pid }

/-- A tracker state holding a hot process (risk 90, anomaly 80) and recent
C2/scan detection timestamps, to exercise warm-up suppression at export. -/
def warmupWitnessState : AgentState :=
  { initialAgentState 0 1 true with
    processes := [(2000, { name := "evil", syscalls := ["ptrace"], totalSyscalls := 1,
                           riskScore := 90, anomalyScore := 80, isAnomaly := true,
                           lastUpdate := 5, excludedFlag := false,
                           connectionCount := 0 })]
    recentC2Detections := [1, 2]
    recentScanDetections := [3] }

/-- Analyzer state with three same-destination connections at t = 0, 6, 12
for pid 7 (a textbook beacon). -/
def beaconWitnessState : AnalyzerState :=
  { initialAnalyzerState with
    connectionHistory := updNat initialAnalyzerState.connectionHistory 7
      [connAt "10.0.0.5" 443 0 7, connAt "10.0.0.5" 443 6 7,
       connAt "10.0.0.5" 443 12 7] }

/-- Analyzer state whose pid 9 has already sent well over the exfiltration
threshold (2 × 100 MiB). -/
def exfilCounterexampleState : AnalyzerState :=
  { initialAnalyzerState with
    bytesSent := updNat initialAnalyzerState.bytesSent 9 209715200 }

/-- Two earlier connections of pid 1 that carried the real port 443,
spaced 3 s apart; a later portless event will reuse that port. -/
def reuseCounterexampleHistory : List ConnRecord :=
  [connAt "10.0.0.5" 443 0 1, connAt "10.0.0.5" 443 3 1]

/-- A trace of two events from pid 7 whose comm is the excluded shell
`bash` (used by the C2 witness). -/
def c2WitnessTrace : List SEvent :=
  [{ pid := 7, syscall := "ptrace", comm := some "bash", exe := none, now := 200 },
   { pid := 7, syscall := "connect", comm := some "bash", exe := none, now := 206 }]

/-- Fitted-agent state tracking pid 7 with a 13-entry ring (used by the C7
witness: the event below brings the window to 14 < 15). -/
def mlGateWitnessState : AgentState :=
  { initialAgentState 0 1 true with
    processes := [(7, { name := "evil", syscalls := List.replicate 13 "openat",
                        totalSyscalls := 13, riskScore := 0, anomalyScore := 0,
                        isAnomaly := false, lastUpdate := 0, excludedFlag := false,
                        connectionCount := 0 })] }

/-- The event the C7 witness handles for pid 7. -/
def mlGateWitnessEvent : SEvent :=
  { pid := 7, syscall := "openat", comm := some "evil", exe := none, now := 200 }

/-! ## Theorems -/

/-- C1: during the warm-up window (every export performed less than
`warmup_period_seconds`, default 180 s, after agent start), the exported
snapshot's `high_risk`, `anomalies`, `c2_beacons` and `port_scans` stats are
all 0, regardless of the tracker contents and of the events processed. -/
theorem warmup_export_suppresses_counters (cfg : AgentConfig) (s : AgentState)
    (now : ℚ) (h : now - s.startupTime < cfg.warmupPeriodSeconds) :
    (exportState cfg s now).stats.highRisk = 0 ∧
    (exportState cfg s now).stats.anomalies = 0 ∧
    (exportState cfg s now).stats.c2Beacons = 0 ∧
    (exportState cfg s now).stats.portScans = 0 := by
  unfold exportState
  simp [if_pos h]

/-- Witness for C1: a state holding a risk-90 / anomaly-80 process and
recent C2 and scan detections, exported 5 s after a start at 0 with the
default 180 s warm-up, still reports four zeros. -/
theorem warmup_export_suppresses_counters_witness :
    ((5 : ℚ) - warmupWitnessState.startupTime <
        defaultAgentConfig.warmupPeriodSeconds) ∧
    ((exportState defaultAgentConfig warmupWitnessState 5).stats.highRisk = 0 ∧
     (exportState defaultAgentConfig warmupWitnessState 5).stats.anomalies = 0 ∧
     (exportState defaultAgentConfig warmupWitnessState 5).stats.c2Beacons = 0 ∧
     (exportState defaultAgentConfig warmupWitnessState 5).stats.portScans = 0) :=
  ⟨by norm_num [warmupWitnessState, initialAgentState, defaultAgentConfig],
   warmup_export_suppresses_counters defaultAgentConfig warmupWitnessState 5
     (by norm_num [warmupWitnessState, initialAgentState, defaultAgentConfig])⟩

/-- C5: a call to `analyze_connection` with a whitelisted process name
(case-insensitive) returns `None` and leaves the analyzer state completely
unchanged: no deque append, no port-set insertion, no byte counter change,
no statistics increment. -/
theorem whitelisted_analyze_is_noop (cfg : ConnConfig) (s : AnalyzerState)
    (pid : Nat) (destIp : String) (destPort : Nat) (ts : ℚ) (n : String)
    (h : (whitelistedProcesses.map lowerStr).contains (lowerStr n) = true) :
    analyzeConnection cfg s pid destIp destPort ts (some n) = (none, s) := by
  have hne : n ≠ "" := by
    intro he
    subst he
    revert h
    decide
  have hg : whitelistHit (some n) = true := by
    show (decide (n ≠ "") &&
      (whitelistedProcesses.map lowerStr).contains (lowerStr n)) = true
    rw [h]
    simp [hne]
  unfold analyzeConnection
  simp [hg]

/-- Witness for C5: analyzing a connection of `Docker` (mixed case) on the
fresh analyzer yields no verdict and the initial state unchanged. -/
theorem whitelisted_analyze_is_noop_witness :
    ((whitelistedProcesses.map lowerStr).contains (lowerStr "Docker") = true) ∧
    analyzeConnection defaultConnConfig initialAnalyzerState 5 "8.8.8.8" 53 1
      (some "Docker") = (none, initialAnalyzerState) :=
  ⟨by decide,
   whitelisted_analyze_is_noop defaultConnConfig initialAnalyzerState 5 "8.8.8.8"
     53 1 "Docker" (by decide)⟩

/-- C9: for every event whose resolved short name is `sudo` (lowercased)
with an executable path containing `python` (lowercased), the exclusion
predicate of `_handle_event` — recomputed on every event — does not exclude
the process, whatever extra names are configured; the handler's effective
name becomes `python3`; and the auditd collector likewise resolves the comm
of such a process to `python3`. -/
theorem sudo_python_not_excluded (extra : List String) (name exeStr : String)
    (h1 : lowerStr name = "sudo") (h2 : exeStr ≠ "")
    (h3 : substrB "python" (lowerStr exeStr) = true) :
    isExcludedEvent (agentExcludedNames { excludedProcesses := extra })
      name (some exeStr) = false ∧
    effectiveEventName name (some exeStr) = "python3" ∧
    resolveAuditComm "sudo" exeStr = "python3" := by
  have hsp : isSudoPython name (some exeStr) = true := by
    unfold isSudoPython
    simp [h1, h2, h3]
  refine ⟨?_, ?_, ?_⟩
  · unfold isExcludedEvent
    simp [hsp]
  · unfold effectiveEventName
    simp [hsp]
  · unfold resolveAuditComm
    simp [h2, h3]

/-- Witness for C9: a `sudo` process executing `/usr/bin/python3.10` is not
excluded (even with extra configured exclusions) and is tracked as
`python3`, and the auditd collector reports it as `python3`. -/
theorem sudo_python_not_excluded_witness :
    (lowerStr "sudo" = "sudo" ∧ ("/usr/bin/python3.10" : String) ≠ "" ∧
     substrB "python" (lowerStr "/usr/bin/python3.10") = true) ∧
    (isExcludedEvent (agentExcludedNames { excludedProcesses := ["nmap"] })
       "sudo" (some "/usr/bin/python3.10") = false ∧
     effectiveEventName "sudo" (some "/usr/bin/python3.10") = "python3" ∧
     resolveAuditComm "sudo" "/usr/bin/python3.10" = "python3") :=
  ⟨⟨by decide, by decide, by decide⟩,
   sudo_python_not_excluded ["nmap"] "sudo" "/usr/bin/python3.10"
     (by decide) (by decide) (by decide)⟩

/-- C10 counterexample: when the pid already has two recorded connections
(here with the real port 443) spaced at least 2 s apart, the fabricated
"synthetic" port is a copy of the last connection's port — 443, outside
`[8000, 8199]` — refuting the claim that every fabricated port lies in that
range. -/
theorem synthetic_port_reuse_counterexample :
    fabricatePort (fun _ => 0) 10 1 "10.0.0.5" 2 reuseCounterexampleHistory = 443 ∧
    ¬(8000 ≤ fabricatePort (fun _ => 0) 10 1 "10.0.0.5" 2 reuseCounterexampleHistory ∧
      fabricatePort (fun _ => 0) 10 1 "10.0.0.5" 2 reuseCounterexampleHistory ≤ 8199) := by
  have h : fabricatePort (fun _ => 0) 10 1 "10.0.0.5" 2 reuseCounterexampleHistory
      = 443 := by
    unfold fabricatePort reuseCounterexampleHistory connAt
    norm_num
  refine ⟨h, ?_⟩
  rw [h]
  omega

/-- C10 amended: a fabricated port either reuses the port of the pid's most
recent recorded connection (taken when at least two connections are recorded
and the last one is 2 s or older — and thus can be any port recorded
earlier, e.g. a real one), or is `8000 + (hash mod 200)`, which always lies
in `[8000, 8199]`; hence the hash branch can produce at most 200 distinct
ports. -/
theorem synthetic_port_range_or_reuse (md5hex8 : String → Nat) (now : ℚ)
    (pid : Nat) (destIp : String) (cc : Nat) (prev : List ConnRecord) :
    fabricatePort md5hex8 now pid destIp cc prev =
      (prev.getLast?.getD { dest := "", ip := "", port := 0, time := 0, pid := 0 }).port ∨
    (8000 ≤ fabricatePort md5hex8 now pid destIp cc prev ∧
     fabricatePort md5hex8 now pid destIp cc prev ≤ 8199) := by
  unfold fabricatePort
  split
  · split
    · exact Or.inl rfl
    · right
      have := Nat.mod_lt (md5hex8 (s!"{pid}_{destIp}_{cc}")) (show 0 < 200 by omega)
      omega
  · right
    have := Nat.mod_lt (md5hex8 (s!"{pid}_{destIp}")) (show 0 < 200 by omega)
    omega

/-- Helper: an option whose every element satisfies `p`, propagated through
`List.findSome?`. -/
theorem findSome?_all {A B : Type} (p : B → Bool) (f : A → Option B)
    (l : List A) (h : ∀ a, Option.all p (f a) = true) :
    Option.all p (l.findSome? f) = true := by
  induction l with
  | nil => rfl
  | cons a as ih =>
      rw [List.findSome?_cons]
      cases hfa : f a with
      | none => exact ih
      | some b =>
          have hb := h a
          rw [hfa] at hb
          exact hb

/-- Helper: every verdict the per-destination beaconing check returns is a
beaconing one. -/
theorem checkDestBeacon_class (cfg : ConnConfig) (pid : Nat) (dest : String)
    (conns : List ConnRecord) :
    Option.all (fun v => verdictClass v == AlertClass.c2Beaconing)
      (checkDestBeacon cfg pid dest conns) = true := by
  unfold checkDestBeacon
  repeat' (first | split | simp only [])
  all_goals rfl

/-- Helper: every verdict `_detect_beaconing` returns is a beaconing one. -/
theorem detectBeaconing_class (cfg : ConnConfig) (s : AnalyzerState) (pid : Nat) :
    Option.all (fun v => verdictClass v == AlertClass.c2Beaconing)
      (detectBeaconing cfg s pid) = true := by
  unfold detectBeaconing
  simp only []
  split
  · rfl
  · exact findSome?_all _ _ _ (fun g => checkDestBeacon_class cfg pid g.1 g.2)

/-- Helper: every verdict `_detect_beaconing_by_name` returns is a beaconing
one. -/
theorem detectBeaconingByName_class (cfg : ConnConfig) (s : AnalyzerState)
    (n ip : String) :
    Option.all (fun v => verdictClass v == AlertClass.c2Beaconing)
      (detectBeaconingByName cfg s n ip) = true := by
  unfold detectBeaconingByName
  repeat' (first | split | simp only [])
  all_goals rfl

/-- Helper: every verdict `_detect_port_scanning` returns is a port-scan
one. -/
theorem detectPortScanning_class (cfg : ConnConfig) (s : AnalyzerState)
    (pid : Nat) (t : ℚ) :
    Option.all (fun v => verdictClass v == AlertClass.portScanning)
      (detectPortScanning cfg s pid t) = true := by
  unfold detectPortScanning
  repeat' (first | split | simp only [])
  all_goals rfl

/-- Helper: every verdict `_detect_port_scanning_by_name` returns is a
port-scan one. -/
theorem detectPortScanningByName_class (cfg : ConnConfig) (s : AnalyzerState)
    (n ip : String) (t : ℚ) :
    Option.all (fun v => verdictClass v == AlertClass.portScanning)
      (detectPortScanningByName cfg s n ip t) = true := by
  unfold detectPortScanningByName
  repeat' (first | split | simp only [])
  all_goals rfl

/-- Helper: equational form of `detectBeaconing_class`. -/
theorem detectBeaconing_eq_class {cfg : ConnConfig} {s : AnalyzerState}
    {pid : Nat} {v : Verdict} (h : detectBeaconing cfg s pid = some v) :
    verdictClass v = AlertClass.c2Beaconing := by
  have hall := detectBeaconing_class cfg s pid
  rw [h] at hall
  simpa using hall

/-- Helper: equational form of `detectBeaconingByName_class`. -/
theorem detectBeaconingByName_eq_class {cfg : ConnConfig} {s : AnalyzerState}
    {n ip : String} {v : Verdict} (h : detectBeaconingByName cfg s n ip = some v) :
    verdictClass v = AlertClass.c2Beaconing := by
  have hall := detectBeaconingByName_class cfg s n ip
  rw [h] at hall
  simpa using hall

/-- Helper: equational form of `detectPortScanning_class`. -/
theorem detectPortScanning_eq_class {cfg : ConnConfig} {s : AnalyzerState}
    {pid : Nat} {t : ℚ} {v : Verdict} (h : detectPortScanning cfg s pid t = some v) :
    verdictClass v = AlertClass.portScanning := by
  have hall := detectPortScanning_class cfg s pid t
  rw [h] at hall
  simpa using hall

/-- Helper: equational form of `detectPortScanningByName_class`. -/
theorem detectPortScanningByName_eq_class {cfg : ConnConfig} {s : AnalyzerState}
    {n ip : String} {t : ℚ} {v : Verdict}
    (h : detectPortScanningByName cfg s n ip t = some v) :
    verdictClass v = AlertClass.portScanning := by
  have hall := detectPortScanningByName_class cfg s n ip t
  rw [h] at hall
  simpa using hall

/-- Helper: `analyze_connection` never produces a `DATA_EXFILTRATION`
verdict (it only runs the beaconing and port-scan detectors). -/
theorem analyzeConnection_no_exfil (cfg : ConnConfig) (s : AnalyzerState)
    (pid : Nat) (destIp : String) (destPort : Nat) (ts : ℚ)
    (pn : Option String) :
    Option.all (fun v => !(verdictClass v == AlertClass.dataExfiltration))
      (analyzeConnection cfg s pid destIp destPort ts pn).1 = true := by
  unfold analyzeConnection
  simp only []
  split
  · rfl
  · split
    · next v heq =>
        have hcls : verdictClass v = AlertClass.c2Beaconing := by
          split at heq
          · next hb =>
              cases heq
              exact detectBeaconing_eq_class hb
          · split at heq
            · next n2 =>
                split at heq
                · exact detectBeaconingByName_eq_class heq
                · exact Option.noConfusion heq
            · exact Option.noConfusion heq
        simp [hcls]
    · split
      · next v heq =>
          have hcls : verdictClass v = AlertClass.portScanning := by
            split at heq
            · next hsc =>
                cases heq
                exact detectPortScanning_eq_class hsc
            · split at heq
              · next n2 =>
                  split at heq
                  · exact detectPortScanningByName_eq_class heq
                  · exact Option.noConfusion heq
              · exact Option.noConfusion heq
          simp [hcls]
      · rfl

/-- C8 counterexample: a call to `analyze_connection` for a pid whose
cumulative bytes-sent (200 MiB) already exceeds the default 100 MiB
threshold fires no verdict at all — in particular no `DATA_EXFILTRATION` —
and does not touch the byte counters: exfiltration is not among the
detectors `analyze_connection` runs. -/
theorem analyze_runs_no_exfiltration_counterexample :
    defaultConnConfig.exfiltrationThreshold <
      exfilCounterexampleState.bytesSent 9 ∧
    (analyzeConnection defaultConnConfig exfilCounterexampleState 9 "1.2.3.4"
        80 0 (some "evil")).1 = none ∧
    (analyzeConnection defaultConnConfig exfilCounterexampleState 9 "1.2.3.4"
        80 0 (some "evil")).2.bytesSent 9 =
      exfilCounterexampleState.bytesSent 9 := by
  refine ⟨by norm_num [defaultConnConfig, exfilCounterexampleState,
    initialAnalyzerState, updNat], ?_, ?_⟩ <;> rfl

/-- C8 amended: `analyze_connection` runs only the beaconing and port-scan
detectors and never returns a `DATA_EXFILTRATION` verdict; the per-pid
cumulative byte counters live in the separate `track_data_transfer` method,
which, when called, adds the transferred bytes and fires a
`DATA_EXFILTRATION` verdict with risk 90, confidence 0.8 and severity
CRITICAL exactly when the new cumulative bytes-sent exceeds the
configurable threshold (default 100 MiB). -/
theorem exfiltration_only_in_track_data_transfer (cfg : ConnConfig)
    (s : AnalyzerState) (pid sent recv : Nat) :
    (trackDataTransfer cfg s pid sent recv).2.bytesSent pid =
      s.bytesSent pid + sent ∧
    (trackDataTransfer cfg s pid sent recv).2.bytesReceived pid =
      s.bytesReceived pid + recv ∧
    (trackDataTransfer cfg s pid sent recv).1 =
      (if cfg.exfiltrationThreshold < s.bytesSent pid + sent then
        some (.dataExfiltration pid (s.bytesSent pid + sent)
          (s.bytesReceived pid + recv)
          (((s.bytesSent pid + sent : Nat) : ℚ) /
            max ((s.bytesReceived pid + recv : Nat) : ℚ) 1)
          90 (4/5) "CRITICAL")
      else none) ∧
    (∀ (pid2 : Nat) (dip : String) (dp : Nat) (ts : ℚ) (pn : Option String),
      Option.all (fun v => !(verdictClass v == AlertClass.dataExfiltration))
        (analyzeConnection cfg s pid2 dip dp ts pn).1 = true) := by
  refine ⟨?_, ?_, ?_, fun pid2 dip dp ts pn =>
    analyzeConnection_no_exfil cfg s pid2 dip dp ts pn⟩
  · unfold trackDataTransfer
    simp only []
    split <;> simp [updNat]
  · unfold trackDataTransfer
    simp only []
    split <;> simp [updNat]
  · unfold trackDataTransfer
    by_cases hc : cfg.exfiltrationThreshold < s.bytesSent pid + sent <;>
      simp [updNat, hc]

/-- C4: at default configuration, `_detect_port_scanning` returns a verdict
exactly when the pid has accumulated at least 5 distinct destination ports,
its connection deque is nonempty with a span below 60 s between oldest and
newest connection, and the rate ports/span is at least 0.1 ports per
second; the verdict then carries risk 75, confidence 0.85 and severity
HIGH.  In particular 4 distinct ports never fire. -/
theorem port_scan_verdict_characterized (s : AnalyzerState) (pid : Nat)
    (now : ℚ) :
    detectPortScanning defaultConnConfig s pid now =
      (if 5 ≤ (s.portAccessHistory pid).length ∧ s.connectionHistory pid ≠ [] ∧
          scanSpan s pid < 60 ∧ (1/10 : ℚ) ≤ scanRate s pid then
        some (.portScanning pid (s.portAccessHistory pid).length
               (scanSpan s pid) (scanRate s pid) 75 (17/20) "HIGH")
      else none) := by
  unfold detectPortScanning scanRate scanSpan
  simp only [defaultConnConfig]
  try simp only []
  split_ifs
  all_goals try rfl
  all_goals simp_all [List.isEmpty_iff]
  all_goals try omega
  all_goals linarith

/-- Helper: stable insertion preserves length. -/
theorem insertByTime_length (c : ConnRecord) (l : List ConnRecord) :
    (insertByTime c l).length = l.length + 1 := by
  induction l with
  | nil => rfl
  | cons y ys ih =>
      unfold insertByTime
      split
      · simp [ih]
      · simp

/-- Helper: the stable sort preserves length. -/
theorem sortByTime_length (l : List ConnRecord) :
    (sortByTime l).length = l.length := by
  suffices h : ∀ acc : List ConnRecord,
      (l.foldl (fun acc c => insertByTime c acc) acc).length =
        acc.length + l.length by
    simpa using h []
  induction l with
  | nil => intro acc; simp
  | cons c rest ih =>
      intro acc
      simp only [List.foldl_cons]
      rw [ih (insertByTime c acc), insertByTime_length]
      simp only [List.length_cons]
      omega

/-- Helper: consecutive intervals are one fewer than the points. -/
theorem intervalsOf_length (l : List ConnRecord) :
    (intervalsOf l).length = l.length - 1 := by
  match l with
  | [] => rfl
  | [a] => rfl
  | a :: b :: rest =>
      have ih := intervalsOf_length (b :: rest)
      unfold intervalsOf
      simp only [List.length_cons] at ih ⊢
      omega

/-- Helper: inserting a connection into its bucket grows the total size by
one. -/
theorem insertGroup_sum (gs : List (String × List ConnRecord)) (k : String)
    (c : ConnRecord) :
    ((insertGroup gs k c).map (fun g => g.2.length)).sum =
      ((gs.map (fun g => g.2.length)).sum) + 1 := by
  induction gs with
  | nil => simp [insertGroup]
  | cons g rest ih =>
      obtain ⟨k2, cs⟩ := g
      unfold insertGroup
      split
      · simp
        omega
      · simp only [List.map_cons, List.sum_cons, ih]
        omega

/-- Helper: the destination buckets partition the history. -/
theorem groupByDest_sum (l : List ConnRecord) :
    ((groupByDest l).map (fun g => g.2.length)).sum = l.length := by
  suffices h : ∀ gs : List (String × List ConnRecord),
      (((l.foldl (fun gs c => insertGroup gs c.dest c) gs)).map
        (fun g => g.2.length)).sum = ((gs.map (fun g => g.2.length)).sum) + l.length by
    simpa [groupByDest] using h []
  induction l with
  | nil => intro gs; simp
  | cons c rest ih =>
      intro gs
      simp only [List.foldl_cons]
      rw [ih (insertGroup gs c.dest c), insertGroup_sum]
      simp only [List.length_cons]
      omega

/-- Helper: no destination bucket is larger than the whole history. -/
theorem mem_groupByDest_length_le {l : List ConnRecord}
    {g : String × List ConnRecord} (h : g ∈ groupByDest l) :
    g.2.length ≤ l.length := by
  have hle := List.single_le_sum
    (l := (groupByDest l).map (fun g => g.2.length))
    (by intro x hx; omega) (g.2.length) (List.mem_map_of_mem _ h)
  rw [groupByDest_sum] at hle
  exact hle

/-- Helper: the per-destination beaconing check at default configuration,
as an equation against the qualifying condition. -/
theorem checkDestBeacon_default (pid : Nat) (dest : String)
    (conns : List ConnRecord) :
    checkDestBeacon defaultConnConfig pid dest conns =
      (if beaconQualifiesB conns then
        some (.c2Beaconing pid (listMean (intervalsOf (sortByTime conns)))
               (sampleVariance (intervalsOf (sortByTime conns))) conns.length
               dest 85 (9/10) "HIGH")
      else none) := by
  have hlen : (intervalsOf (sortByTime conns)).length = conns.length - 1 := by
    rw [intervalsOf_length, sortByTime_length]
  by_cases hq : beaconQualifiesB conns = true
  · have hq2 := hq
    unfold beaconQualifiesB sqrtLtB at hq2
    simp only [Bool.and_eq_true, decide_eq_true_eq] at hq2
    obtain ⟨⟨h3, hm⟩, _, hv⟩ := hq2
    unfold checkDestBeacon
    simp only [defaultConnConfig]
    try simp only []
    rw [if_neg (by omega), if_neg (by omega), if_neg (not_lt.mpr hm),
        if_pos (by omega), if_pos hm,
        if_pos (show sqrtLtB (sampleVariance (intervalsOf (sortByTime conns)))
          10 = true by unfold sqrtLtB; simp only [Bool.and_eq_true,
            decide_eq_true_eq]; exact ⟨by norm_num, hv⟩),
        if_pos hq]
  · rw [if_neg hq]
    have hq2 := hq
    unfold beaconQualifiesB sqrtLtB at hq2
    simp only [Bool.and_eq_true, decide_eq_true_eq, not_and, not_lt] at hq2
    unfold checkDestBeacon
    simp only [defaultConnConfig]
    try simp only []
    by_cases h1 : conns.length < 3
    · rw [if_pos h1]
    · rw [if_neg h1]
      rw [if_neg (by omega)]
      by_cases h2 : listMean (intervalsOf (sortByTime conns)) < 1
      · rw [if_pos h2]
      · rw [if_neg h2, if_pos (by omega), if_pos (not_lt.mp h2)]
        have hvar : ¬ sqrtLtB (sampleVariance (intervalsOf (sortByTime conns)))
            10 = true := by
          unfold sqrtLtB
          simp only [Bool.and_eq_true, decide_eq_true_eq, not_and, not_lt]
          intro hten
          exact hq2 ⟨by omega, not_lt.mp h2⟩ hten
        rw [if_neg hvar]

/-- Helper: options propagated through `findSome?` when all elements map
to `none`. -/
theorem findSome?_none {A B : Type} (f : A → Option B) (l : List A)
    (h : ∀ a ∈ l, f a = none) : l.findSome? f = none :=
  List.findSome?_eq_none.mpr h

/-- Helper: when some destination bucket qualifies, the bucket scan of
`_detect_beaconing` returns the verdict of one (the first) qualifying
bucket. -/
theorem findSome?_beacon (pid : Nat) :
    ∀ gs : List (String × List ConnRecord),
      gs.any (fun g => beaconQualifiesB g.2) = true →
      ∃ g, g ∈ gs ∧ beaconQualifiesB g.2 = true ∧
        gs.findSome? (fun g => checkDestBeacon defaultConnConfig pid g.1 g.2) =
          some (.c2Beaconing pid (listMean (intervalsOf (sortByTime g.2)))
                 (sampleVariance (intervalsOf (sortByTime g.2))) g.2.length g.1
                 85 (9/10) "HIGH")
  | [], h => by simp at h
  | g :: rest, h => by
      rw [List.findSome?_cons]
      by_cases hg : beaconQualifiesB g.2 = true
      · refine ⟨g, List.mem_cons_self g rest, hg, ?_⟩
        rw [checkDestBeacon_default, if_pos hg]
      · have h2 : rest.any (fun g => beaconQualifiesB g.2) = true := by
          rcases List.any_eq_true.mp h with ⟨g2, hmem, hq2⟩
          rcases List.mem_cons.mp hmem with heq | hmem2
          · exact absurd (heq ▸ hq2) hg
          · exact List.any_eq_true.mpr ⟨g2, hmem2, hq2⟩
        obtain ⟨g2, hmem, hq2, heq⟩ := findSome?_beacon pid rest h2
        refine ⟨g2, List.mem_cons_of_mem _ hmem, hq2, ?_⟩
        rw [checkDestBeacon_default, if_neg hg]
        exact heq

/-- C3: at default configuration, whenever some destination group of the
pid's connection history holds at least 3 connections whose consecutive
(sorted) intervals have mean at least 1 s and sample standard deviation
below 10 s, `_detect_beaconing` returns a `C2_BEACONING` verdict carrying
risk 85, confidence 0.9, severity HIGH and the interval statistics of a
qualifying destination group; and when every destination group holds at
most 2 connections, it never returns a verdict. -/
theorem beaconing_verdict_characterized (s : AnalyzerState) (pid : Nat) :
    ((groupByDest (s.connectionHistory pid)).any
        (fun g => beaconQualifiesB g.2) = true →
      beaconVerdictMatches pid (s.connectionHistory pid)
        (detectBeaconing defaultConnConfig s pid) = true) ∧
    ((groupByDest (s.connectionHistory pid)).all
        (fun g => decide (g.2.length ≤ 2)) = true →
      detectBeaconing defaultConnConfig s pid = none) := by
  constructor
  · intro h
    obtain ⟨g, hmem, hq, heq⟩ := findSome?_beacon pid _ h
    have hlen3 : 3 ≤ g.2.length := by
      have hq2 := hq
      unfold beaconQualifiesB at hq2
      simp only [Bool.and_eq_true, decide_eq_true_eq] at hq2
      exact hq2.1.1
    have hht : 3 ≤ (s.connectionHistory pid).length :=
      le_trans hlen3 (mem_groupByDest_length_le hmem)
    unfold detectBeaconing
    simp only [show defaultConnConfig.minConnectionsForBeacon = 3 from rfl]
    try simp only []
    rw [if_neg (by omega), heq]
    unfold beaconVerdictMatches
    simp only [Bool.and_eq_true, beq_self_eq_true, true_and, List.any_eq_true]
    exact ⟨g, hmem, by simp [hq]⟩
  · intro hall
    unfold detectBeaconing
    simp only [show defaultConnConfig.minConnectionsForBeacon = 3 from rfl]
    try simp only []
    split
    · rfl
    · apply findSome?_none
      intro g hmem
      rw [checkDestBeacon_default]
      have hle : g.2.length ≤ 2 := by
        have := List.all_eq_true.mp hall g hmem
        simpa using this
      have hqf : beaconQualifiesB g.2 = false := by
        unfold beaconQualifiesB
        have : ¬ (3 ≤ g.2.length) := by omega
        simp [this]
      rw [hqf]
      simp

/-- Witness for C3: three connections of pid 7 to `10.0.0.5:443` at t = 0,
6, 12 (mean 6 s, deviation 0) qualify, and the detector's verdict matches
(risk 85, confidence 0.9, HIGH, with those statistics). -/
theorem beaconing_verdict_characterized_witness :
    ((groupByDest (beaconWitnessState.connectionHistory 7)).any
        (fun g => beaconQualifiesB g.2) = true) ∧
    beaconVerdictMatches 7 (beaconWitnessState.connectionHistory 7)
      (detectBeaconing defaultConnConfig beaconWitnessState 7) = true := by
  have hq : ((groupByDest (beaconWitnessState.connectionHistory 7)).any
      (fun g => beaconQualifiesB g.2) = true) := by
    norm_num [beaconWitnessState, initialAnalyzerState, updNat, connAt,
      groupByDest, insertGroup, beaconQualifiesB, sortByTime, insertByTime,
      intervalsOf, listMean, sampleVariance, sqrtLtB]
  exact ⟨hq, (beaconing_verdict_characterized beaconWitnessState 7).1 hq⟩

/-- Helper: storing a record makes it the one looked up. -/
theorem lookup_setProc_self (ps : List (Nat × ProcRecord)) (pid : Nat)
    (r : ProcRecord) : (setProc ps pid r).lookup pid = some r := by
  induction ps with
  | nil => simp [setProc, List.lookup]
  | cons kv rest ih =>
      obtain ⟨k, b⟩ := kv
      unfold setProc
      by_cases hk : k = pid
      · simp [hk, List.lookup]
      · have hb : (pid == k) = false := beq_eq_false_iff_ne.mpr (Ne.symm hk)
        simp [hk, List.lookup, hb, ih]

/-- Helper: storing a record for one pid leaves other lookups unchanged. -/
theorem lookup_setProc_ne (ps : List (Nat × ProcRecord)) (pid q : Nat)
    (r : ProcRecord) (hne : q ≠ pid) :
    (setProc ps pid r).lookup q = ps.lookup q := by
  induction ps with
  | nil =>
      have hb : (q == pid) = false := beq_eq_false_iff_ne.mpr hne
      simp [setProc, List.lookup, hb]
  | cons kv rest ih =>
      obtain ⟨k, b⟩ := kv
      unfold setProc
      by_cases hk : k = pid
      · subst hk
        have hb : (q == k) = false := beq_eq_false_iff_ne.mpr hne
        simp [List.lookup, hb]
      · simp only [if_neg hk]
        cases hqk : (q == k) <;> simp [List.lookup, hqk, ih]

/-- Helper: deleting a pid's record removes exactly that lookup. -/
theorem lookup_delProc (ps : List (Nat × ProcRecord)) (pid q : Nat) :
    (delProc ps pid).lookup q =
      (if q = pid then none else ps.lookup q) := by
  unfold delProc
  induction ps with
  | nil => simp [List.lookup]
  | cons kv rest ih =>
      obtain ⟨k, b⟩ := kv
      rw [List.filter_cons]
      by_cases hk : k = pid
      · have hcond : (decide ((k, b).1 ≠ pid)) = false := by simp [hk]
        rw [hcond]
        simp only [Bool.false_eq_true, if_false]
        rw [ih]
        by_cases hq : q = pid
        · simp [hq]
        · have hqk : (q == k) = false :=
            beq_eq_false_iff_ne.mpr (fun he => hq (by rw [he]; exact hk))
          simp [hq, List.lookup, hqk]
      · have hcond : (decide ((k, b).1 ≠ pid)) = true := by simp [hk]
        rw [hcond]
        simp only [if_true]
        by_cases hqk : (q == k) = true
        · have hq : q = k := beq_iff_eq.mp hqk
          have hqp : q ≠ pid := fun he => hk (by rw [← hq]; exact he)
          simp [List.lookup, hqk, hqp]
        · have hqk2 : (q == k) = false := by
            simpa using hqk
          simp only [List.lookup, hqk2]
          exact ih

/-- Helper: no connection verdict is classed as an ML anomaly or high-risk
alert. -/
theorem verdictClass_ne (v : Verdict) :
    verdictClass v ≠ AlertClass.mlAnomaly ∧
    verdictClass v ≠ AlertClass.highRisk := by
  cases v <;> simp [verdictClass]

/-- Helper: the immediate anomaly block never touches the process map. -/
theorem anomalyImmediateStage_processes (w : Bool) (m : MLOutcome) (pid : Nat)
    (now : ℚ) (s : AgentState) :
    (anomalyImmediateStage w m pid now s).1.processes = s.processes := by
  unfold anomalyImmediateStage
  split <;> rfl

/-- Helper: alerts of the immediate anomaly block are ML-anomaly alerts for
the handled pid. -/
theorem anomalyImmediateStage_alerts (w : Bool) (m : MLOutcome) (pid : Nat)
    (now : ℚ) (s : AgentState) :
    ∀ a ∈ (anomalyImmediateStage w m pid now s).2,
      a.pid = pid ∧ a.cls = AlertClass.mlAnomaly := by
  unfold anomalyImmediateStage
  split
  · intro a ha
    simp only [List.mem_singleton] at ha
    subst ha
    exact ⟨rfl, rfl⟩
  · intro a ha
    simp at ha

/-- Helper: without an ML invocation the immediate anomaly block is
silent. -/
theorem anomalyImmediateStage_not_invoked (w : Bool) (m : MLOutcome)
    (pid : Nat) (now : ℚ) (s : AgentState) (h : m.invoked = false) :
    (anomalyImmediateStage w m pid now s).2 = [] := by
  unfold anomalyImmediateStage
  simp [h]

/-- Helper: the anomaly-counter stage never touches the process map. -/
theorem anomalyStatsStage_processes (w : Bool) (m : MLOutcome)
    (s : AgentState) :
    (anomalyStatsStage w m s).processes = s.processes := by
  unfold anomalyStatsStage
  split <;> rfl

/-- Helper: the record returned by the connection stage differs from its
input at most in the connection counter. -/
theorem connectionStage_rec (m : String → Nat) (cfg : AgentConfig)
    (e : SEvent) (r : ProcRecord) (s : AgentState) :
    (connectionStage m cfg e r s).2.1 = r ∨
    (connectionStage m cfg e r s).2.1 =
      { r with connectionCount := r.connectionCount + 1 } := by
  unfold connectionStage portStep
  repeat' (first | split | simp only [])
  all_goals first
    | exact Or.inl rfl
    | exact Or.inr rfl
    | exact Or.inl trivial
    | exact Or.inr trivial

/-- Helper: the connection stage changes no process entry other than the
handled pid's. -/
theorem connectionStage_lookup_ne (m : String → Nat) (cfg : AgentConfig)
    (e : SEvent) (r : ProcRecord) (s : AgentState) (q : Nat)
    (hq : q ≠ e.pid) :
    ((connectionStage m cfg e r s).1).processes.lookup q =
      s.processes.lookup q := by
  have hana : ∀ (recC : ProcRecord) (dip : String) (dp : Nat) (s4a : AgentState),
      (connectionAnalysisStep cfg e recC dip dp s4a).1.processes =
        s4a.processes := by
    intro recC dip dp s4a
    unfold connectionAnalysisStep
    repeat' (first | split | simp only [])
    all_goals rfl
  unfold connectionStage portStep
  repeat' (first | split | simp only [])
  all_goals rw [hana]
  all_goals try rfl
  all_goals exact lookup_setProc_ne _ _ _ _ hq

/-- Helper: alerts of the connection stage are connection-pattern alerts for
the handled pid. -/
theorem connectionStage_alerts (m : String → Nat) (cfg : AgentConfig)
    (e : SEvent) (r : ProcRecord) (s : AgentState) :
    ∀ a ∈ (connectionStage m cfg e r s).2.2.1,
      a.pid = e.pid ∧ a.cls ≠ AlertClass.mlAnomaly ∧
      a.cls ≠ AlertClass.highRisk := by
  have hana : ∀ (recC : ProcRecord) (dip : String) (dp : Nat) (s4a : AgentState),
      ∀ a ∈ (connectionAnalysisStep cfg e recC dip dp s4a).2.1,
        a.pid = e.pid ∧ a.cls ≠ AlertClass.mlAnomaly ∧
        a.cls ≠ AlertClass.highRisk := by
    intro recC dip dp s4a
    unfold connectionAnalysisStep
    repeat' (first | split | simp only [])
    all_goals intro a ha
    all_goals simp only [List.mem_singleton, List.not_mem_nil] at ha
    all_goals try exact absurd ha (by simp)
    all_goals subst ha
    all_goals exact ⟨rfl, (verdictClass_ne _).1, (verdictClass_ne _).2⟩
  unfold connectionStage
  try simp only []
  repeat' split
  all_goals intro a ha
  all_goals try exact hana _ _ _ _ a ha
  all_goals simp at ha

/-- Helper: the high-risk block never touches the process map. -/
theorem highRiskStage_processes (cfg : AgentConfig) (w : Bool) (risk : ℚ)
    (pid : Nat) (now : ℚ) (s : AgentState) :
    (highRiskStage cfg w risk pid now s).1.processes = s.processes := by
  unfold highRiskStage
  repeat' (first | split | simp only [])
  all_goals rfl

/-- Helper: alerts of the high-risk block are high-risk alerts for the
handled pid. -/
theorem highRiskStage_alerts (cfg : AgentConfig) (w : Bool) (risk : ℚ)
    (pid : Nat) (now : ℚ) (s : AgentState) :
    ∀ a ∈ (highRiskStage cfg w risk pid now s).2,
      a.pid = pid ∧ a.cls = AlertClass.highRisk := by
  unfold highRiskStage
  repeat' (first | split | simp only [])
  all_goals intro a ha
  all_goals simp only [List.mem_singleton, List.not_mem_nil] at ha
  all_goals try exact absurd ha (by simp)
  all_goals subst ha
  all_goals exact ⟨rfl, rfl⟩

/-- Helper: the trailing anomaly block never touches the process map. -/
theorem anomalySecondStage_processes (w : Bool) (r : ProcRecord)
    (m : MLOutcome) (pid : Nat) (now : ℚ) (s : AgentState) :
    (anomalySecondStage w r m pid now s).1.processes = s.processes := by
  unfold anomalySecondStage
  repeat' (first | split | simp only [])
  all_goals rfl

/-- Helper: alerts of the trailing anomaly block are ML-anomaly alerts for
the handled pid. -/
theorem anomalySecondStage_alerts (w : Bool) (r : ProcRecord)
    (m : MLOutcome) (pid : Nat) (now : ℚ) (s : AgentState) :
    ∀ a ∈ (anomalySecondStage w r m pid now s).2,
      a.pid = pid ∧ a.cls = AlertClass.mlAnomaly := by
  unfold anomalySecondStage
  repeat' (first | split | simp only [])
  all_goals intro a ha
  all_goals simp only [List.mem_singleton, List.not_mem_nil] at ha
  all_goals try exact absurd ha (by simp)
  all_goals subst ha
  all_goals exact ⟨rfl, rfl⟩

/-- Helper: without an anomaly flag the trailing anomaly block is silent. -/
theorem anomalySecondStage_not_anomalous (w : Bool) (r : ProcRecord)
    (m : MLOutcome) (pid : Nat) (now : ℚ) (s : AgentState)
    (h : r.isAnomaly = false) :
    (anomalySecondStage w r m pid now s).2 = [] := by
  unfold anomalySecondStage
  simp [h]

/-- Helper: a capped deque append keeps the cap. -/
theorem dequeAppend_length_le {α : Type} (l : List α) (x : α) (n : Nat)
    (hl : l.length ≤ n) (hn : 1 ≤ n) : (dequeAppend l x n).length ≤ n := by
  unfold dequeAppend
  split
  · simp only [List.length_append, List.length_drop, List.length_singleton]
    omega
  · simp only [List.length_append, List.length_singleton]
    omega

/-- Helper: a capped deque append grows the length by at most one. -/
theorem dequeAppend_length_le_succ {α : Type} (l : List α) (x : α) (n : Nat) :
    (dequeAppend l x n).length ≤ l.length + 1 := by
  unfold dequeAppend
  split
  · simp only [List.length_append, List.length_drop, List.length_singleton]
    omega
  · simp only [List.length_append, List.length_singleton]
    omega

/-- Helper: the removed outcome of the tracker section deletes exactly the
event's pid. -/
theorem trackerUpdate_removed {cfg : AgentConfig} {s : AgentState} {e : SEvent}
    {s1 : AgentState} (h : trackerUpdate cfg s e = .removed s1) :
    s1.processes = delProc s.processes e.pid := by
  unfold trackerUpdate at h
  try simp only [] at h
  split at h
  · cases h
    rfl
  · exact TrackResult.noConfusion h

/-- Helper: the record `trackerBase` passes on either is fresh or shares its
ring and counter with the stored record. -/
theorem trackerBase_fields {cfg : AgentConfig} {s : AgentState} {e : SEvent}
    {rec0 : ProcRecord} (h : trackerBase cfg s e = some rec0) :
    (rec0.syscalls = [] ∧ rec0.totalSyscalls = 0) ∨
    (∃ old, s.processes.lookup e.pid = some old ∧
      rec0.syscalls = old.syscalls ∧ rec0.totalSyscalls = old.totalSyscalls) := by
  unfold trackerBase at h
  try simp only [] at h
  split at h
  · cases h
    exact Or.inl ⟨rfl, rfl⟩
  · next old heq =>
      split at h
      · exact Option.noConfusion h
      · cases h
        exact Or.inr ⟨old, heq, rfl, rfl⟩

/-- Helper: the tracked outcome stores an appended record whose ring and
counter extend the previous (or a fresh) record's. -/
theorem trackerUpdate_tracked {cfg : AgentConfig} {s : AgentState} {e : SEvent}
    {s1 : AgentState} {rec1 : ProcRecord}
    (h : trackerUpdate cfg s e = .tracked s1 rec1) :
    s1.processes = setProc s.processes e.pid rec1 ∧
    ∃ rec0, trackerBase cfg s e = some rec0 ∧
      rec1.syscalls = dequeAppend rec0.syscalls e.syscall 100 ∧
      rec1.totalSyscalls = rec0.totalSyscalls + 1 ∧
      rec1.anomalyScore = rec0.anomalyScore ∧
      rec1.isAnomaly = rec0.isAnomaly := by
  unfold trackerUpdate at h
  try simp only [] at h
  split at h
  · exact TrackResult.noConfusion h
  · next rec0 heq =>
      cases h
      exact ⟨rfl, rec0, heq, rfl, rfl, rfl, rfl⟩

/-- Helper: every alert one `_handle_event` call emits is for the event's
own pid. -/
theorem handleEvent_alert_pid (md5hex8 : String → Nat) (cfg : AgentConfig)
    (s : AgentState) (e : SEvent) :
    ∀ a ∈ (handleEvent md5hex8 cfg s e).2.alerts, a.pid = e.pid := by
  unfold handleEvent
  split
  · intro a ha
    simp at ha
  · split
    · intro a ha
      simp at ha
    · split
      · intro a ha
        simp at ha
      · try simp only []
        intro a ha
        simp only [List.mem_append] at ha
        rcases ha with ((h1 | h2) | h3) | h4
        · exact (anomalyImmediateStage_alerts _ _ _ _ _ a h1).1
        · exact (connectionStage_alerts _ _ _ _ _ a h2).1
        · exact (highRiskStage_alerts _ _ _ _ _ _ a h3).1
        · exact (anomalySecondStage_alerts _ _ _ _ _ _ a h4).1

/-- Helper: an event whose resolved name is excluded produces no alerts. -/
theorem handleEvent_excluded_silent (md5hex8 : String → Nat)
    (cfg : AgentConfig) (s : AgentState) (e : SEvent)
    (h : isExcludedEvent (agentExcludedNames cfg) (preLockName e) e.exe = true) :
    (handleEvent md5hex8 cfg s e).2.alerts = [] := by
  unfold handleEvent
  split
  · rfl
  · simp [h]

/-- C2: for every process whose resolved name matches the exclusion
predicate of `_handle_event` (case-insensitive, substring in either
direction, with the sudo/python override), no alert of any class is ever
emitted for that process over any sequence of ingested events. -/
theorem excluded_name_never_alerted (md5hex8 : String → Nat)
    (cfg : AgentConfig) (init : AgentState) (trace : List SEvent) (p : Nat)
    (h : trace.all (fun e => !(e.pid == p) ||
           isExcludedEvent (agentExcludedNames cfg) (preLockName e) e.exe)
         = true) :
    (runAgent md5hex8 cfg init trace).2.filter (fun a => a.pid == p) = [] := by
  unfold runAgent
  suffices hgen : ∀ (tr : List SEvent) (st : AgentState) (acc : List Alert),
      tr.all (fun e => !(e.pid == p) ||
        isExcludedEvent (agentExcludedNames cfg) (preLockName e) e.exe) = true →
      acc.filter (fun a => a.pid == p) = [] →
      ((tr.foldl (fun acc e =>
          let r := handleEvent md5hex8 cfg acc.1 e
          (r.1, acc.2 ++ r.2.alerts)) (st, acc)).2.filter
        (fun a => a.pid == p)) = [] by
    exact hgen trace init [] h rfl
  intro tr
  induction tr with
  | nil =>
      intro st acc _ hacc
      simpa using hacc
  | cons e rest ih =>
      intro st acc hall hacc
      rw [List.all_cons, Bool.and_eq_true] at hall
      simp only [List.foldl_cons]
      apply ih _ _ hall.2
      rw [List.filter_append, hacc, List.nil_append]
      by_cases hp : e.pid = p
      · have hex : isExcludedEvent (agentExcludedNames cfg) (preLockName e)
            e.exe = true := by
          have h1 := hall.1
          rw [hp] at h1
          simpa using h1
        rw [handleEvent_excluded_silent md5hex8 cfg st e hex]
        rfl
      · apply List.filter_eq_nil_iff.mpr
        intro a ha
        have hap := handleEvent_alert_pid md5hex8 cfg st e a ha
        simp [hap, hp]

/-- Helper: the connection stage preserves the record's ring, counter and
ML fields. -/
theorem connectionStage_rec_fields (m : String → Nat) (cfg : AgentConfig)
    (e : SEvent) (r : ProcRecord) (s : AgentState) :
    (connectionStage m cfg e r s).2.1.syscalls = r.syscalls ∧
    (connectionStage m cfg e r s).2.1.totalSyscalls = r.totalSyscalls ∧
    (connectionStage m cfg e r s).2.1.anomalyScore = r.anomalyScore ∧
    (connectionStage m cfg e r s).2.1.isAnomaly = r.isAnomaly := by
  rcases connectionStage_rec m cfg e r s with hc | hc <;> rw [hc] <;>
    exact ⟨rfl, rfl, rfl, rfl⟩

/-- Helper: one `_handle_event` call preserves the per-record ring
invariant. -/
theorem handleEvent_ring_inv (md5hex8 : String → Nat) (cfg : AgentConfig)
    (s : AgentState) (e : SEvent)
    (hInv : ∀ q, ringInv (s.processes.lookup q)) :
    ∀ q, ringInv (((handleEvent md5hex8 cfg s e).1.processes).lookup q) := by
  intro q
  unfold handleEvent
  split
  · exact hInv q
  split
  · exact hInv q
  split
  · next s1 heq =>
      rw [trackerUpdate_removed heq, lookup_delProc]
      split
      · trivial
      · exact hInv q
  · next s1 rec1 heq =>
      try simp only []
      rw [anomalySecondStage_processes, highRiskStage_processes]
      obtain ⟨hs1, rec0, hbase, hsys, htot, _, _⟩ := trackerUpdate_tracked heq
      have hrecBound : rec1.syscalls.length ≤ 100 ∧
          rec1.syscalls.length ≤ rec1.totalSyscalls := by
        rcases trackerBase_fields hbase with ⟨hemp, htot0⟩ |
          ⟨old, hlook, hsys0, htot0⟩
        · constructor
          · rw [hsys, hemp]
            exact dequeAppend_length_le _ _ _ (by simp) (by omega)
          · rw [hsys, hemp, htot, htot0]
            have := dequeAppend_length_le_succ ([] : List String) e.syscall 100
            simpa using this
        · have hOld := hInv e.pid
          rw [hlook] at hOld
          simp only [ringInv] at hOld
          constructor
          · rw [hsys, hsys0]
            exact dequeAppend_length_le _ _ _ hOld.1 (by omega)
          · rw [hsys, hsys0, htot, htot0]
            have := dequeAppend_length_le_succ old.syscalls e.syscall 100
            omega
      by_cases hq : q = e.pid
      · subst hq
        rw [lookup_setProc_self]
        simp only [ringInv]
        rw [(connectionStage_rec_fields md5hex8 cfg e _ _).1,
            (connectionStage_rec_fields md5hex8 cfg e _ _).2.1]
        simpa using hrecBound
      · rw [lookup_setProc_ne _ _ _ _ hq,
            connectionStage_lookup_ne _ _ _ _ _ _ hq,
            anomalyStatsStage_processes, anomalyImmediateStage_processes,
            lookup_setProc_ne _ _ _ _ hq, hs1,
            lookup_setProc_ne _ _ _ _ hq]
        exact hInv q

/-- C6: for every pid ever observed by the tracker and after every handled
event (any trace from the reset initial state), the per-process syscall
ring holds at most 100 entries and the cumulative `total_syscalls` count is
at least the ring's length. -/
theorem tracker_ring_bounded (md5hex8 : String → Nat) (cfg : AgentConfig)
    (startup : ℚ) (agentPid : Nat) (fitted : Bool) (trace : List SEvent)
    (pid : Nat) :
    ringInv (((runAgent md5hex8 cfg (initialAgentState startup agentPid fitted)
      trace).1.processes).lookup pid) := by
  unfold runAgent
  suffices hgen : ∀ (tr : List SEvent) (st : AgentState) (acc : List Alert),
      (∀ q, ringInv (st.processes.lookup q)) →
      ∀ q, ringInv (((tr.foldl (fun acc e =>
          let r := handleEvent md5hex8 cfg acc.1 e
          (r.1, acc.2 ++ r.2.alerts)) (st, acc)).1.processes).lookup q) by
    apply hgen
    intro q
    simp [initialAgentState, List.lookup, ringInv]
  intro tr
  induction tr with
  | nil => intro st acc hst q; exact hst q
  | cons e rest ih =>
      intro st acc hst q
      simp only [List.foldl_cons]
      exact ih _ _ (handleEvent_ring_inv md5hex8 cfg st e hst) q

/-- Witness for C2: a trace of two events from pid 7 with the excluded comm
`bash` satisfies the exclusion hypothesis, and the run raises no alert for
pid 7. -/
theorem excluded_name_never_alerted_witness :
    (c2WitnessTrace.all (fun e => !(e.pid == 7) ||
        isExcludedEvent (agentExcludedNames defaultAgentConfig) (preLockName e)
          e.exe) = true) ∧
    (runAgent (fun _ => 0) defaultAgentConfig (initialAgentState 0 1 true)
        c2WitnessTrace).2.filter (fun a => a.pid == 7) = [] :=
  ⟨by decide, excluded_name_never_alerted (fun _ => 0) defaultAgentConfig
      (initialAgentState 0 1 true) c2WitnessTrace 7 (by decide)⟩

/-- Helper: the tracked outcome leaves the fitted flag unchanged. -/
theorem trackerUpdate_tracked_fitted {cfg : AgentConfig} {s : AgentState}
    {e : SEvent} {s1 : AgentState} {rec1 : ProcRecord}
    (h : trackerUpdate cfg s e = .tracked s1 rec1) :
    s1.mlFitted = s.mlFitted := by
  unfold trackerUpdate at h
  try simp only [] at h
  split at h
  · exact TrackResult.noConfusion h
  · cases h
    rfl

/-- Helper: the connection stage preserves the record's anomaly score. -/
theorem connectionStage_anomalyScore (m : String → Nat) (cfg : AgentConfig)
    (e : SEvent) (r : ProcRecord) (s : AgentState) :
    (connectionStage m cfg e r s).2.1.anomalyScore = r.anomalyScore :=
  (connectionStage_rec_fields m cfg e r s).2.2.1

/-- Helper: the connection stage preserves the record's anomaly flag. -/
theorem connectionStage_isAnomaly (m : String → Nat) (cfg : AgentConfig)
    (e : SEvent) (r : ProcRecord) (s : AgentState) :
    (connectionStage m cfg e r s).2.1.isAnomaly = r.isAnomaly :=
  (connectionStage_rec_fields m cfg e r s).2.2.2

/-- Helper: no connection-stage alert survives the ML-anomaly filter. -/
theorem connectionStage_no_mlanomaly (m : String → Nat) (cfg : AgentConfig)
    (e : SEvent) (r : ProcRecord) (s : AgentState) :
    ((connectionStage m cfg e r s).2.2.1).filter
      (fun a => a.cls == AlertClass.mlAnomaly) = [] := by
  refine List.filter_eq_nil_iff.mpr ?_
  intro a ha
  have h := (connectionStage_alerts m cfg e r s a ha).2.1
  simpa using h

/-- Helper: no high-risk-block alert survives the ML-anomaly filter. -/
theorem highRiskStage_no_mlanomaly (cfg : AgentConfig) (w : Bool) (risk : ℚ)
    (pid : Nat) (now : ℚ) (s : AgentState) :
    ((highRiskStage cfg w risk pid now s).2).filter
      (fun a => a.cls == AlertClass.mlAnomaly) = [] := by
  refine List.filter_eq_nil_iff.mpr ?_
  intro a ha
  have h := (highRiskStage_alerts cfg w risk pid now s a ha).2
  simp [h]

/-- C7: with a fitted detector, when the post-append syscall window is
shorter than `min_syscalls_for_ml = 15` the handler skips ensemble
inference (storing a zero anomaly score and a cleared anomaly flag, and
raising no ML-anomaly alert); with at least 15 entries the ensemble is
invoked. -/
theorem ml_window_gate (md5hex8 : String → Nat) (cfg : AgentConfig)
    (s : AgentState) (e : SEvent)
    (hfit : s.mlFitted = true)
    (hreach : reachesDetection cfg s e = true) :
    ((postSyscallList cfg s e).length < 15 →
      (handleEvent md5hex8 cfg s e).2.mlInvoked = false ∧
      anomalyCleared (((handleEvent md5hex8 cfg s e).1.processes).lookup
        e.pid) ∧
      ((handleEvent md5hex8 cfg s e).2.alerts.filter
        (fun a => a.cls == AlertClass.mlAnomaly)) = []) ∧
    (15 ≤ (postSyscallList cfg s e).length →
      (handleEvent md5hex8 cfg s e).2.mlInvoked = true) := by
  unfold reachesDetection at hreach
  rw [Bool.and_eq_true, Bool.and_eq_true] at hreach
  obtain ⟨⟨hpidb, hexclb⟩, htrk⟩ := hreach
  have hpid : ¬ (e.pid = s.agentPid) := by simpa using hpidb
  have hexcl : ¬ (isExcludedEvent (agentExcludedNames cfg) (preLockName e)
      e.exe = true) := by simpa using hexclb
  obtain ⟨s1, rec1, heq⟩ : ∃ s1 rec1,
      trackerUpdate cfg s e = TrackResult.tracked s1 rec1 := by
    cases htu : trackerUpdate cfg s e with
    | removed s1 => rw [htu] at htrk; simp at htrk
    | tracked s1 rec1 => exact ⟨s1, rec1, rfl⟩
  have hfit1 : s1.mlFitted = true := by
    rw [trackerUpdate_tracked_fitted heq, hfit]
  have hpost : postSyscallList cfg s e = rec1.syscalls := by
    unfold postSyscallList
    rw [heq]
  unfold handleEvent
  rw [if_neg hpid, if_neg hexcl, heq]
  try simp only []
  constructor
  · intro hlen
    rw [hpost] at hlen
    have hmlv : mlStep s1.mlFitted e rec1 =
        { anomalyScore := 0, isAnomaly := false, invoked := false } := by
      unfold mlStep
      rw [hfit1]
      simp [hlen]
    rw [hmlv]
    refine ⟨rfl, ?_, ?_⟩
    · simp [anomalySecondStage_processes, highRiskStage_processes,
            lookup_setProc_self, anomalyCleared,
            connectionStage_anomalyScore, connectionStage_isAnomaly]
    · simp only [List.filter_append]
      rw [anomalyImmediateStage_not_invoked _
            { anomalyScore := 0, isAnomaly := false, invoked := false }
            _ _ _ rfl,
          connectionStage_no_mlanomaly, highRiskStage_no_mlanomaly]
      unfold anomalySecondStage
      simp [connectionStage_isAnomaly]
  · intro hlen
    rw [hpost] at hlen
    have hmlv : mlStep s1.mlFitted e rec1 =
        { anomalyScore := |e.mlScore|, isAnomaly := e.mlIsAnomaly,
          invoked := true } := by
      unfold mlStep
      rw [hfit1]
      simp [Nat.not_lt.mpr hlen]
    rw [hmlv]

/-- Witness for C7: pid 7 has 13 recorded syscalls and the handled event
brings the window to 14 < 15, so inference is skipped, the stored anomaly
fields are zeroed and no ML-anomaly alert fires. -/
theorem ml_window_gate_witness :
    (mlGateWitnessState.mlFitted = true ∧
     reachesDetection defaultAgentConfig mlGateWitnessState mlGateWitnessEvent
       = true ∧
     (postSyscallList defaultAgentConfig mlGateWitnessState
        mlGateWitnessEvent).length < 15) ∧
    ((handleEvent (fun _ => 0) defaultAgentConfig mlGateWitnessState
        mlGateWitnessEvent).2.mlInvoked = false ∧
     anomalyCleared (((handleEvent (fun _ => 0) defaultAgentConfig
        mlGateWitnessState mlGateWitnessEvent).1.processes).lookup 7) ∧
     ((handleEvent (fun _ => 0) defaultAgentConfig mlGateWitnessState
        mlGateWitnessEvent).2.alerts.filter
        (fun a => a.cls == AlertClass.mlAnomaly)) = []) :=
  ⟨⟨by decide, by decide, by decide⟩,
   (ml_window_gate (fun _ => 0) defaultAgentConfig mlGateWitnessState
      mlGateWitnessEvent (by decide) (by decide)).1 (by decide)⟩
